import Mathlib

/-!
# DataView builtins of Escargot (`src/runtime/GlobalObjectBuiltinDataView.cpp`)

A shallow embedding of the DataView constructor, the sixteen typed accessors
generated by `DECLARE_DATAVIEW_GETTER` / `DECLARE_DATAVIEW_SETTER`, and the three
attribute getters, followed by theorems about them.

Conventions of the embedding:

* a C++ `double` is a `Double`: NaN, the two infinities, or a finite value given
  by the rational number it denotes.  The sign of zero is not represented; the
  code below only compares, adds, subtracts and truncates, and none of these
  distinguishes the two zeros.  `+` and `-` round to nearest, ties to even, at
  53 bits of precision;
* a thrown exception is the `error` side of `Except`;
* `argc` is the length of the argument list and `argv[i]` reads `undefined`
  beyond it (the engine pads `argv` up to the declared parameter count);
* array buffers, with their bytes, live in the heap of the `ExecutionState`; values
  hold references;
* coercions of a value (`toNumber`, `toLength`) do not change the heap: detachment
  happens between calls into the builtins, never inside one.
-/

namespace Escargot

/-! ## Doubles -/

/-- An IEEE-754 binary64 value, up to the sign of zero. -/
inductive Double where
  | nan
  | posInf
  | negInf
  | fin (q : ℚ)
  deriving DecidableEq

namespace Double

/-- Nearest integer to `x`, ties going to the even neighbour. -/
def roundHalfEven (x : ℚ) : ℤ :=
  if x - ⌊x⌋ < 1 / 2 then ⌊x⌋
  else if 1 / 2 < x - ⌊x⌋ then ⌊x⌋ + 1
  else if ⌊x⌋ % 2 = 0 then ⌊x⌋
  else ⌊x⌋ + 1

/-- Exponent of the unit in the last place of the binade of `q`: 53 significant
bits, and never below the subnormal spacing `2^-1074`. -/
def ulpExponent (q : ℚ) : ℤ :=
  max (Int.log 2 |q| - 52) (-1074)

/-- Rounding of an exact result to binary64: to nearest, ties to even, overflowing
to an infinity from `2^1024` on. -/
def round (q : ℚ) : Double :=
  let r : ℚ := (roundHalfEven (q / (2 : ℚ) ^ ulpExponent q) : ℚ) * (2 : ℚ) ^ ulpExponent q
  if (2 : ℚ) ^ (1024 : ℕ) ≤ |r| then (if 0 < r then posInf else negInf) else fin r

/-- Conversion of an unsigned integer to `double`. -/
def ofNat (n : ℕ) : Double :=
  round (n : ℚ)

/-- C++ `a == b` on doubles. -/
def eq : Double → Double → Bool
  | fin a, fin b => decide (a = b)
  | posInf, posInf => true
  | negInf, negInf => true
  | _, _ => false

/-- C++ `a != b` on doubles (true as soon as one side is NaN). -/
def ne (a b : Double) : Bool :=
  !(eq a b)

/-- C++ `a < b` on doubles (false as soon as one side is NaN). -/
def lt : Double → Double → Bool
  | nan, _ => false
  | _, nan => false
  | fin a, fin b => decide (a < b)
  | negInf, negInf => false
  | negInf, _ => true
  | _, negInf => false
  | posInf, _ => false
  | fin _, posInf => true

/-- C++ `a > b` on doubles. -/
def gt (a b : Double) : Bool :=
  lt b a

/-- C++ `a <= b` on doubles. -/
def le (a b : Double) : Bool :=
  lt a b || eq a b

/-- C++ `a + b` on doubles. -/
def add : Double → Double → Double
  | nan, _ => nan
  | _, nan => nan
  | posInf, negInf => nan
  | negInf, posInf => nan
  | posInf, _ => posInf
  | _, posInf => posInf
  | negInf, _ => negInf
  | _, negInf => negInf
  | fin a, fin b => round (a + b)

/-- C++ `a - b` on doubles. -/
def sub : Double → Double → Double
  | nan, _ => nan
  | _, nan => nan
  | posInf, posInf => nan
  | negInf, negInf => nan
  | posInf, _ => posInf
  | _, negInf => posInf
  | negInf, _ => negInf
  | _, posInf => negInf
  | fin a, fin b => round (a - b)

/-- The call `std::min(a, b)`: `b < a ? b : a`. -/
def min (a b : Double) : Double :=
  if lt b a then b else a

/-- Modelled from the spec: `Value::toInteger` on a number is not in src; this is
the ToInteger rule named in section 6 of the spec: NaN gives 0, an infinity is
kept, any other number is truncated towards zero. -/
def toInteger : Double → Double
  | nan => fin 0
  | posInf => posInf
  | negInf => negInf
  | fin q => if q < 0 then fin (⌈q⌉ : ℤ) else fin (⌊q⌋ : ℤ)

end Double

/-! ## Values, objects and the heap -/

/-- The eight element types listed by `FOR_EACH_DATAVIEW_TYPES`. -/
inductive TypedArrayType where
  | Float32
  | Float64
  | Int8
  | Int16
  | Int32
  | Uint8
  | Uint16
  | Uint32
  deriving DecidableEq

/-- The token that `##Name` pastes for each element type. -/
def TypedArrayType.name : TypedArrayType → String
  | .Float32 => "Float32"
  | .Float64 => "Float64"
  | .Int8 => "Int8"
  | .Int16 => "Int16"
  | .Int32 => "Int32"
  | .Uint8 => "Uint8"
  | .Uint16 => "Uint16"
  | .Uint32 => "Uint32"

/-- The static string `get##Name`. -/
def TypedArrayType.getName (t : TypedArrayType) : String :=
  "get" ++ t.name

/-- The static string `set##Name`. -/
def TypedArrayType.setName (t : TypedArrayType) : String :=
  "set" ++ t.name

/-- Modelled from the spec: `ArrayBufferObject` is not in src; a Buffer has a
nominal length, a detached flag and a byte storage (section 3 of the spec);
`data i` is the byte stored at index `i`, 0 in a fresh buffer. -/
structure ArrayBufferObject where
  bytelength : ℕ
  detached : Bool
  data : ℕ → ℕ := fun _ => 0

/-- The call `buffer->isDetachedBuffer()`. -/
def ArrayBufferObject.isDetachedBuffer (b : ArrayBufferObject) : Bool :=
  b.detached

/-- Modelled from the spec: `ArrayBufferView` / `DataViewObject` are not in src; a
View references a Buffer and carries the `byteOffset` and `byteLength` handed to
`setBuffer` (section 3 of the spec).  `buffer` is a heap reference. -/
structure DataViewObject where
  buffer : ℕ
  byteoffset : Double
  bytelength : Double
  deriving DecidableEq

/-- The call `obj->setBuffer(buffer, byteOffset, byteLength)`. -/
def DataViewObject.setBuffer (obj : DataViewObject) (buffer : ℕ) (byteOffset byteLength : Double) :
    DataViewObject :=
  { obj with buffer := buffer, byteoffset := byteOffset, bytelength := byteLength }

/-- Heap objects, by the class tests the builtins perform on them. -/
inductive Object where
  | arrayBuffer (ref : ℕ)
  | dataView (view : DataViewObject)
  | booleanObject (b : Bool)
  | numberObject (d : Double)
  | stringObject (s : String)
  | symbolObject (id : ℕ)
  | ordinary (id : ℕ)
  deriving DecidableEq

/-- JavaScript values. -/
inductive Value where
  | undefined
  | null
  | boolean (b : Bool)
  | number (d : Double)
  | string (s : String)
  | symbol (id : ℕ)
  | object (o : Object)
  deriving DecidableEq

/-- The kinds of `ErrorObject::Code` thrown by this file. -/
inductive ErrorCode where
  | TypeError
  | RangeError
  deriving DecidableEq

/-- The message templates handed to `throwBuiltinError`: the named
`errorMessage_GlobalObject_*` constants this file uses, or a literal. -/
inductive ErrorMessage where
  | NotExistNewInDataViewConstructor
  | ThisNotArrayBufferObject
  | InvalidArrayBufferOffset
  | ThisNotDataViewObject
  | ThisUndefinedOrNull
  | literal (s : String)
  deriving DecidableEq

/-- What a call can throw: a builtin error with the arguments given to
`ErrorObject::throwBuiltinError` (error code, object name, prototype flag, function
name, message template), the overload taking only a message, or a value thrown
by the value-conversion layer. -/
inductive Thrown where
  | builtinError (code : ErrorCode) (objectName : String) (prototype : Bool)
      (functionName : String) (message : ErrorMessage)
  | builtinErrorMessage (code : ErrorCode) (message : String)
  | exception (v : Value)
  deriving DecidableEq

/-- The heap of array buffers reachable from an execution state. -/
structure ExecutionState where
  buffers : ℕ → ArrayBufferObject

/-- The conversions of the host value layer that no rule of this file fixes:
ToNumber of a string, a symbol or an object (which may throw). -/
structure ValueConversion where
  hostToNumber : Value → Except Thrown Double

namespace Value

/-- The test `isUndefined()`. -/
def isUndefined : Value → Bool
  | undefined => true
  | _ => false

/-- The test `isUndefinedOrNull()`. -/
def isUndefinedOrNull : Value → Bool
  | undefined => true
  | null => true
  | _ => false

/-- Modelled from the spec: `Value::toNumber` is not in src; this is the ToNumber
rule named in section 6 of the spec: `undefined` gives NaN, `null` gives 0, a
boolean gives 0 or 1, a number is itself, and the other values go through the
host conversion. -/
def toNumber (c : ValueConversion) : Value → Except Thrown Double
  | undefined => pure Double.nan
  | null => pure (Double.fin 0)
  | boolean b => pure (Double.fin (if b then 1 else 0))
  | number d => pure d
  | v => c.hostToNumber v

/-- Modelled from the spec: `Value::toLength` is not in src; the length-coercion
rule of section 4.1 of the spec: the ToInteger value clamped into `[0, 2^53-1]`. -/
def toLength (c : ValueConversion) (v : Value) : Except Thrown Double := do
  let len := Double.toInteger (← toNumber c v)
  if Double.le len (Double.fin 0) then pure (Double.fin 0)
  else pure (Double.min len (Double.fin (2 ^ 53 - 1)))

/-- The call `toObject(state)` on a value that is neither `undefined` nor `null`: an
object is itself, a primitive is wrapped. -/
def toObject : Value → Object
  | object o => o
  | boolean b => Object.booleanObject b
  | number d => Object.numberObject d
  | string s => Object.stringObject s
  | symbol id => Object.symbolObject id
  | undefined => Object.ordinary 0
  | null => Object.ordinary 0

/-- The cast `thisValue.asObject()->asArrayBufferView()` of a constructing call, whose
receiver is the view allocated by the constructor protocol. -/
def asArrayBufferView : Value → DataViewObject
  | object (Object.dataView view) => view
  | _ => { buffer := 0, byteoffset := Double.fin 0, bytelength := Double.fin 0 }

end Value

/-- The slot `argv[i]` of a call with the argument list `args`. -/
def argv (args : List Value) (i : ℕ) : Value :=
  args.getD i Value.undefined

/-! ## The constructor -/

/-- The function `builtinDataViewConstructor` (lines 37-84). -/
def builtinDataViewConstructor (c : ValueConversion) (state : ExecutionState) (thisValue : Value)
    (args : List Value) (isNewExpression : Bool) : Except Thrown Value := do
  if !isNewExpression then
    throw (Thrown.builtinError ErrorCode.TypeError "DataView" false ""
      ErrorMessage.NotExistNewInDataViewConstructor)
  let obj := thisValue.asArrayBufferView
  match argv args 0 with
  | Value.object (Object.arrayBuffer buffer) =>
    let mut byteOffset := Double.fin 0
    if 2 ≤ args.length then
      let numberOffset ← (argv args 1).toNumber c
      byteOffset := Double.toInteger numberOffset
      if Double.ne numberOffset byteOffset || Double.lt byteOffset (Double.fin 0) then
        throw (Thrown.builtinError ErrorCode.RangeError "DataView" false ""
          ErrorMessage.InvalidArrayBufferOffset)
    if (state.buffers buffer).isDetachedBuffer then
      throw (Thrown.builtinError ErrorCode.TypeError "DataView" false ""
        (ErrorMessage.literal "%s: ArrayBuffer is detached buffer"))
    let bufferByteLength := Double.ofNat (state.buffers buffer).bytelength
    if Double.gt byteOffset bufferByteLength then
      throw (Thrown.builtinError ErrorCode.RangeError "DataView" false ""
        ErrorMessage.InvalidArrayBufferOffset)
    let mut byteLength := Double.sub bufferByteLength byteOffset
    if 3 ≤ args.length then
      if !(argv args 2).isUndefined then
        byteLength ← (argv args 2).toLength c
        if Double.gt (Double.add byteOffset byteLength) bufferByteLength then
          throw (Thrown.builtinError ErrorCode.RangeError "DataView" false ""
            ErrorMessage.InvalidArrayBufferOffset)
    return Value.object (Object.dataView (obj.setBuffer buffer byteOffset byteLength))
  | _ =>
    throw (Thrown.builtinError ErrorCode.TypeError "DataView" false ""
      ErrorMessage.ThisNotArrayBufferObject)

/-- Lines 49-57 of `builtinDataViewConstructor` as a function of their own: the byte
offset, 0 when `argc < 2`, else the ToInteger of the second argument, refused with
a RangeError when it differs from the number it came from or is negative. -/
def dataViewConstructorOffset (c : ValueConversion) (args : List Value) : Except Thrown Double :=
  if 2 ≤ args.length then do
    let numberOffset ← (argv args 1).toNumber c
    let byteOffset := Double.toInteger numberOffset
    if Double.ne numberOffset byteOffset || Double.lt byteOffset (Double.fin 0) then
      throw (Thrown.builtinError ErrorCode.RangeError "DataView" false ""
        ErrorMessage.InvalidArrayBufferOffset)
    else pure byteOffset
  else pure (Double.fin 0)

/-- Lines 59-83 of `builtinDataViewConstructor` as a function of the byte offset: the
detached check, the offset range check, the byte length and its range check, and
the store into the view. -/
def dataViewConstructorBody (c : ValueConversion) (state : ExecutionState) (obj : DataViewObject)
    (buffer : ℕ) (args : List Value) (byteOffset : Double) : Except Thrown Value :=
  if (state.buffers buffer).isDetachedBuffer then
    throw (Thrown.builtinError ErrorCode.TypeError "DataView" false ""
      (ErrorMessage.literal "%s: ArrayBuffer is detached buffer"))
  else
    let bufferByteLength := Double.ofNat (state.buffers buffer).bytelength
    if Double.gt byteOffset bufferByteLength then
      throw (Thrown.builtinError ErrorCode.RangeError "DataView" false ""
        ErrorMessage.InvalidArrayBufferOffset)
    else do
      let byteLength ←
        (if 3 ≤ args.length && !(argv args 2).isUndefined then do
          let byteLength ← (argv args 2).toLength c
          if Double.gt (Double.add byteOffset byteLength) bufferByteLength then
            throw (Thrown.builtinError ErrorCode.RangeError "DataView" false ""
              ErrorMessage.InvalidArrayBufferOffset)
          else pure byteLength
        else pure (Double.sub bufferByteLength byteOffset))
      pure (Value.object (Object.dataView (obj.setBuffer buffer byteOffset byteLength)))

/-! ## The typed accessors -/

/-- The type of `DataViewObject::getViewValue(state, index, littleEndian, type)`, which
is not in src. -/
abbrev GetViewValue :=
  ExecutionState → DataViewObject → Value → Value → TypedArrayType → Except Thrown Value

/-- The type of `DataViewObject::setViewValue(state, index, littleEndian, type, value)`,
which is not in src; a store returns the state it leaves. -/
abbrev SetViewValue :=
  ExecutionState → DataViewObject → Value → Value → TypedArrayType → Value →
    Except Thrown (Value × ExecutionState)

/-- Modelled from the spec: the macro `RESOLVE_THIS_BINDING_TO_OBJECT(NAME, OBJ,
BUILT_IN_METHOD)` is not in src; a receiver that is `undefined` or `null` fails with a
TypeError tagged with the method name it was given, any other receiver is
converted to an object (section 4.2 of the spec). -/
def resolveThisBindingToObject (thisValue : Value) (obj builtinMethod : String) :
    Except Thrown Object :=
  if thisValue.isUndefinedOrNull then
    throw (Thrown.builtinError ErrorCode.TypeError obj true builtinMethod
      ErrorMessage.ThisUndefinedOrNull)
  else pure thisValue.toObject

/-- The functions `builtinDataViewGet##Name` generated by `DECLARE_DATAVIEW_GETTER`. -/
def builtinDataViewGet (getViewValue : GetViewValue) (Name : TypedArrayType)
    (state : ExecutionState) (thisValue : Value) (args : List Value) : Except Thrown Value := do
  let thisObject ← resolveThisBindingToObject thisValue "DataView" Name.getName
  match thisObject with
  | Object.dataView view =>
    if args.length < 2 then
      getViewValue state view (argv args 0) (Value.boolean false) Name
    else
      getViewValue state view (argv args 0) (argv args 1) Name
  | _ =>
    throw (Thrown.builtinError ErrorCode.TypeError "DataView" true Name.getName
      ErrorMessage.ThisNotDataViewObject)

/-- The functions `builtinDataViewSet##Name` generated by `DECLARE_DATAVIEW_SETTER`. -/
def builtinDataViewSet (setViewValue : SetViewValue) (Name : TypedArrayType)
    (state : ExecutionState) (thisValue : Value) (args : List Value) :
    Except Thrown (Value × ExecutionState) := do
  let thisObject ← resolveThisBindingToObject thisValue "DataView" Name.getName
  match thisObject with
  | Object.dataView view =>
    if args.length < 3 then
      setViewValue state view (argv args 0) (Value.boolean false) Name (argv args 1)
    else
      setViewValue state view (argv args 0) (argv args 2) Name (argv args 1)
  | _ =>
    throw (Thrown.builtinError ErrorCode.TypeError "DataView" true Name.setName
      ErrorMessage.ThisNotDataViewObject)

/-! ## The attribute getters -/

/-- The function `builtinDataViewBufferGetter`. -/
def builtinDataViewBufferGetter (_state : ExecutionState) (thisValue : Value)
    (_args : List Value) : Except Thrown Value :=
  match thisValue with
  | Value.object (Object.dataView view) => pure (Value.object (Object.arrayBuffer view.buffer))
  | _ =>
    throw (Thrown.builtinErrorMessage ErrorCode.TypeError
      "get DataView.prototype.buffer called on incompatible receiver")

/-- The function `builtinDataViewByteLengthGetter`. -/
def builtinDataViewByteLengthGetter (_state : ExecutionState) (thisValue : Value)
    (_args : List Value) : Except Thrown Value :=
  match thisValue with
  | Value.object (Object.dataView view) => pure (Value.number view.bytelength)
  | _ =>
    throw (Thrown.builtinErrorMessage ErrorCode.TypeError
      "get DataView.prototype.byteLength called on incompatible receiver")

/-- The function `builtinDataViewByteOffsetGetter`. -/
def builtinDataViewByteOffsetGetter (_state : ExecutionState) (thisValue : Value)
    (_args : List Value) : Except Thrown Value :=
  match thisValue with
  | Value.object (Object.dataView view) => pure (Value.number view.byteoffset)
  | _ =>
    throw (Thrown.builtinErrorMessage ErrorCode.TypeError
      "get DataView.prototype.byteOffset called on incompatible receiver")

/-! ## Sample inputs -/

/-- A host conversion under which every string, symbol and object converts to NaN. -/
def sampleConversion : ValueConversion :=
  { hostToNumber := fun _ => Except.ok Double.nan }

/-- A state whose heap holds, at every reference, a buffer of the given length and
detached flag, all of whose bytes are 0. -/
def bufferState (bytelength : ℕ) (detached : Bool) : ExecutionState :=
  { buffers := fun _ => { bytelength := bytelength, detached := detached } }

/-- The view object that the constructor protocol allocates for a `new` call, before
`setBuffer` has run. -/
def freshView : Value :=
  Value.object (Object.dataView
    { buffer := 0, byteoffset := Double.fin 0, bytelength := Double.fin 0 })

/-! ## The decision list of the constructor -/

/-- A number that is an integer and is not negative. -/
def Double.isNaturalNumber : Double → Bool
  | Double.fin q => decide (0 ≤ q ∧ ((⌊q⌋ : ℤ) : ℚ) = q)
  | _ => false

/-- Step (3) of the decision list as C15 words it: the offset is rejected when it
is not an integer, is NaN or is negative. -/
def offsetRejectedAsWorded (n : Double) : Bool :=
  !n.isNaturalNumber

/-- Step (3) of the decision list as line 54 decides it: the offset is rejected when
it differs from its integer truncation or is negative, so NaN, fractions,
negative numbers and `-∞` are rejected and `+∞` is not. -/
def offsetRejected (n : Double) : Bool :=
  !(n.isNaturalNumber || Double.eq n Double.posInf)

/-- The exact comparison `d + l > L` of a number with natural numbers. -/
def Double.exceeds (d : Double) (l L : ℕ) : Bool :=
  match d with
  | Double.fin q => decide ((L : ℚ) < q + l)
  | Double.posInf => true
  | _ => false

/-- The exact difference `L - d` of a natural number and a number. -/
def Double.remaining (d : Double) (L : ℕ) : Double :=
  match d with
  | Double.fin q => Double.fin ((L : ℚ) - q)
  | Double.posInf => Double.negInf
  | Double.negInf => Double.posInf
  | Double.nan => Double.nan

/-- The first-failure decision list of C15, in exact arithmetic, on the numbers the
arguments convert to: `offset` is the number of the offset argument when one is
provided, `length` the ToLength value of the length argument when one is provided
and is not `undefined`; `rejected` is the test of step (3). -/
def constructorDecisionList (rejected : Double → Bool) (state : ExecutionState)
    (obj : DataViewObject) (isNewExpression : Bool) (first : Value) (offset : Option Double)
    (length : Option ℕ) : Except Thrown Value :=
  if isNewExpression = false then
    Except.error (Thrown.builtinError ErrorCode.TypeError "DataView" false ""
      ErrorMessage.NotExistNewInDataViewConstructor)
  else
    match first with
    | Value.object (Object.arrayBuffer buffer) =>
      let byteOffset := offset.getD (Double.fin 0)
      let bufferLength := (state.buffers buffer).bytelength
      if (offset.map rejected).getD false = true then
        Except.error (Thrown.builtinError ErrorCode.RangeError "DataView" false ""
          ErrorMessage.InvalidArrayBufferOffset)
      else if (state.buffers buffer).detached = true then
        Except.error (Thrown.builtinError ErrorCode.TypeError "DataView" false ""
          (ErrorMessage.literal "%s: ArrayBuffer is detached buffer"))
      else if byteOffset.exceeds 0 bufferLength = true then
        Except.error (Thrown.builtinError ErrorCode.RangeError "DataView" false ""
          ErrorMessage.InvalidArrayBufferOffset)
      else if (length.map fun (l : ℕ) => byteOffset.exceeds l bufferLength).getD false = true then
        Except.error (Thrown.builtinError ErrorCode.RangeError "DataView" false ""
          ErrorMessage.InvalidArrayBufferOffset)
      else
        Except.ok (Value.object (Object.dataView
          { obj with
            buffer := buffer
            byteoffset := byteOffset
            bytelength := (length.map fun (l : ℕ) => Double.fin (l : ℚ)).getD
              (byteOffset.remaining bufferLength) }))
    | _ =>
      Except.error (Thrown.builtinError ErrorCode.TypeError "DataView" false ""
        ErrorMessage.ThisNotArrayBufferObject)

/-- The offset a call provides: the number `n` of its second argument when
`argc >= 2`. -/
def providedOffset (args : List Value) (n : Double) : Option Double :=
  if 2 ≤ args.length then some n else none

/-- The length a call provides: the ToLength value `l` of its third argument when
`argc >= 3` and that argument is not `undefined`. -/
def providedLength (args : List Value) (l : ℕ) : Option ℕ :=
  if 3 ≤ args.length ∧ (argv args 2).isUndefined = false then some l else none

/-! ## The byte codec and the view access, from the spec -/

/-- Modelled from the spec: the error kinds of section 7 are not in src; the access
errors are an `InvalidIndexError` and an `AccessOutOfRangeError` (range errors) and a
`DetachedBufferError` (a type error), each carrying the name the spec gives it. -/
def invalidIndexError : Thrown :=
  Thrown.builtinErrorMessage ErrorCode.RangeError "InvalidIndexError"

/-- Modelled from the spec: the `AccessOutOfRangeError` of section 4.2. -/
def accessOutOfRangeError : Thrown :=
  Thrown.builtinErrorMessage ErrorCode.RangeError "AccessOutOfRangeError"

/-- Modelled from the spec: the `DetachedBufferError` of section 4.2. -/
def detachedBufferError : Thrown :=
  Thrown.builtinErrorMessage ErrorCode.TypeError "DetachedBufferError"

/-- Modelled from the spec: `Value::toBoolean` is not in src; `littleEndian` is false
when falsy and true when truthy (section 4.2): `undefined`, `null`, `false`, zero,
NaN and the empty string are falsy. -/
def Value.toBoolean : Value → Bool
  | Value.undefined => false
  | Value.null => false
  | Value.boolean b => b
  | Value.number Double.nan => false
  | Value.number (Double.fin q) => decide (q ≠ 0)
  | Value.number _ => true
  | Value.string s => decide (s ≠ "")
  | Value.symbol _ => true
  | Value.object _ => true

/-- Modelled from the spec: `Value::toIndex` is not in src; the request offset is
converted to an integer index in `[0, 2^53-1]` and fails with `InvalidIndexError`
outside that range (section 4.2). -/
def Value.toIndex (c : ValueConversion) (v : Value) : Except Thrown ℕ := do
  match Double.toInteger (← v.toNumber c) with
  | Double.fin q =>
    if q < 0 ∨ 2 ^ 53 - 1 < q then throw invalidIndexError else pure ⌊q⌋.toNat
  | _ => throw invalidIndexError

/-- Modelled from the spec: the address arithmetic of the raw access is not in src;
the natural number a stored offset stands for. -/
def Double.toNat : Double → ℕ
  | Double.fin q => ⌊q⌋.toNat
  | _ => 0

/-- Modelled from the spec: the byte widths of the eight formats (section 3). -/
def TypedArrayType.width : TypedArrayType → ℕ
  | TypedArrayType.Float32 => 4
  | TypedArrayType.Float64 => 8
  | TypedArrayType.Int8 => 1
  | TypedArrayType.Int16 => 2
  | TypedArrayType.Int32 => 4
  | TypedArrayType.Uint8 => 1
  | TypedArrayType.Uint16 => 2
  | TypedArrayType.Uint32 => 4

/-- Modelled from the spec: part of the integer encode of section 4.3: the `width`
low bytes of `n`, least significant first. -/
def littleEndianBytes : ℕ → ℕ → List ℕ
  | 0, _ => []
  | width + 1, n => n % 256 :: littleEndianBytes width (n / 256)

/-- Modelled from the spec: part of the integer decode of section 4.3: the unsigned
integer with the given bytes, least significant first. -/
def ofLittleEndianBytes : List ℕ → ℕ
  | [] => 0
  | b :: bytes => b + 256 * ofLittleEndianBytes bytes

/-- Modelled from the spec: integer encode of the byte codec (section 4.3): the
input reduced modulo `2^(8*width)`, split into bytes, most significant first for
big-endian and least significant first for little-endian. -/
def encodeBytes (width : ℕ) (littleEndian : Bool) (n : ℕ) : List ℕ :=
  if littleEndian then littleEndianBytes width n else (littleEndianBytes width n).reverse

/-- Modelled from the spec: integer decode of the byte codec (section 4.3): the
bytes assembled in the given order into an unsigned integer. -/
def decodeBytes (littleEndian : Bool) (bytes : List ℕ) : ℕ :=
  ofLittleEndianBytes (if littleEndian then bytes else bytes.reverse)

/-- Modelled from the spec: the reduction of a number to an integer format
(section 4.2): the ToInteger value modulo `2^bits`, as an unsigned integer; NaN and
the infinities give 0. -/
def Double.toUnsignedModulo (bits : ℕ) (d : Double) : ℕ :=
  match Double.toInteger d with
  | Double.fin q => (⌊q⌋ % 2 ^ bits).toNat
  | _ => 0

/-- Modelled from the spec: the two's-complement reading of an unsigned integer of
`bits` bits (section 4.3). -/
def signedOfUnsigned (bits n : ℕ) : ℤ :=
  if n < 2 ^ (bits - 1) then (n : ℤ) else (n : ℤ) - 2 ^ bits

/-- Modelled from the spec: part of the float codec of section 4.3: the exponent of
the smallest positive value of an IEEE-754 binary format with
`mbits` stored mantissa bits and `ebits` exponent bits (`-1074` for binary64, `-149`
for binary32). -/
def floatMinExponent (mbits ebits : ℕ) : ℤ :=
  2 - 2 ^ (ebits - 1) - mbits

/-- Modelled from the spec: part of the float codec of section 4.3: the exponent of
the unit in the last place of `q` in that format. -/
def floatUlpExponent (mbits ebits : ℕ) (q : ℚ) : ℤ :=
  if q = 0 then floatMinExponent mbits ebits
  else max (Int.log 2 |q| - mbits) (floatMinExponent mbits ebits)

/-- Modelled from the spec: float encode of the byte codec (sections 4.2 and 4.3):
the IEEE-754 bit pattern of the number, as an unsigned integer of
`1 + ebits + mbits` bits, narrowing with round-to-nearest, ties to even. -/
def encodeFloat (mbits ebits : ℕ) (d : Double) : ℕ :=
  match d with
  | Double.nan => (2 ^ ebits - 1) * 2 ^ mbits + 2 ^ (mbits - 1)
  | Double.posInf => (2 ^ ebits - 1) * 2 ^ mbits
  | Double.negInf => 2 ^ (ebits + mbits) + (2 ^ ebits - 1) * 2 ^ mbits
  | Double.fin q =>
    (if q < 0 then 2 ^ (ebits + mbits) else 0) +
      min
        ((floatUlpExponent mbits ebits q - floatMinExponent mbits ebits).toNat * 2 ^ mbits +
          (Double.roundHalfEven (|q| / (2 : ℚ) ^ floatUlpExponent mbits ebits q)).toNat)
        ((2 ^ ebits - 1) * 2 ^ mbits)

/-- Modelled from the spec: float decode of the byte codec (section 4.3): the value
whose IEEE-754 bit pattern is the given unsigned integer. -/
def decodeFloat (mbits ebits : ℕ) (bits : ℕ) : Double :=
  if bits / 2 ^ mbits % 2 ^ ebits = 2 ^ ebits - 1 then
    if bits % 2 ^ mbits = 0 then
      (if bits / 2 ^ (ebits + mbits) % 2 = 1 then Double.negInf else Double.posInf)
    else Double.nan
  else if bits / 2 ^ mbits % 2 ^ ebits = 0 then
    Double.fin ((if bits / 2 ^ (ebits + mbits) % 2 = 1 then -1 else 1) *
      ((bits % 2 ^ mbits : ℕ) : ℚ) * (2 : ℚ) ^ floatMinExponent mbits ebits)
  else
    Double.fin ((if bits / 2 ^ (ebits + mbits) % 2 = 1 then -1 else 1) *
      ((2 ^ mbits + bits % 2 ^ mbits : ℕ) : ℚ) *
        (2 : ℚ) ^ (((bits / 2 ^ mbits % 2 ^ ebits : ℕ) : ℤ) - 1 + floatMinExponent mbits ebits))

/-- Modelled from the spec: the values a float format holds exactly: NaN, the
infinities, and the numbers below `2^(emax+1)` that are a whole multiple of the
unit in the last place of their binade. -/
def Double.isFloat (mbits ebits : ℕ) : Double → Bool
  | Double.fin q =>
    decide (((⌊|q| / (2 : ℚ) ^ floatUlpExponent mbits ebits q⌋ : ℤ) : ℚ) =
        |q| / (2 : ℚ) ^ floatUlpExponent mbits ebits q ∧
      |q| < (2 : ℚ) ^ (2 ^ (ebits - 1) : ℕ))
  | _ => true

/-- Modelled from the spec: the domain of an integer format (section 3): the
integers from `lo` to `hi`. -/
def Double.isIntegerIn (lo hi : ℤ) : Double → Bool
  | Double.fin q => decide (((⌊q⌋ : ℤ) : ℚ) = q ∧ (lo : ℚ) ≤ q ∧ q ≤ (hi : ℚ))
  | _ => false

/-- Modelled from the spec: the representable domain of each format (section 3). -/
def TypedArrayType.represents : TypedArrayType → Double → Bool
  | TypedArrayType.Float32, d => d.isFloat 23 8
  | TypedArrayType.Float64, d => d.isFloat 52 11
  | TypedArrayType.Int8, d => d.isIntegerIn (-128) 127
  | TypedArrayType.Int16, d => d.isIntegerIn (-32768) 32767
  | TypedArrayType.Int32, d => d.isIntegerIn (-2147483648) 2147483647
  | TypedArrayType.Uint8, d => d.isIntegerIn 0 255
  | TypedArrayType.Uint16, d => d.isIntegerIn 0 65535
  | TypedArrayType.Uint32, d => d.isIntegerIn 0 4294967295

/-- Modelled from the spec: the encode rule of each format (sections 4.2 and 4.3):
the unsigned integer whose bytes are stored. -/
def TypedArrayType.encode : TypedArrayType → Double → ℕ
  | TypedArrayType.Float32, d => encodeFloat 23 8 d
  | TypedArrayType.Float64, d => encodeFloat 52 11 d
  | TypedArrayType.Int8, d => d.toUnsignedModulo 8
  | TypedArrayType.Int16, d => d.toUnsignedModulo 16
  | TypedArrayType.Int32, d => d.toUnsignedModulo 32
  | TypedArrayType.Uint8, d => d.toUnsignedModulo 8
  | TypedArrayType.Uint16, d => d.toUnsignedModulo 16
  | TypedArrayType.Uint32, d => d.toUnsignedModulo 32

/-- Modelled from the spec: the decode rule of each format (section 4.3): the
number that the unsigned integer assembled from the bytes stands for. -/
def TypedArrayType.decode : TypedArrayType → ℕ → Double
  | TypedArrayType.Float32, n => decodeFloat 23 8 n
  | TypedArrayType.Float64, n => decodeFloat 52 11 n
  | TypedArrayType.Int8, n => Double.fin (signedOfUnsigned 8 n : ℤ)
  | TypedArrayType.Int16, n => Double.fin (signedOfUnsigned 16 n : ℤ)
  | TypedArrayType.Int32, n => Double.fin (signedOfUnsigned 32 n : ℤ)
  | TypedArrayType.Uint8, n => Double.fin (n : ℚ)
  | TypedArrayType.Uint16, n => Double.fin (n : ℚ)
  | TypedArrayType.Uint32, n => Double.fin (n : ℚ)

/-- Modelled from the spec: the raw access of the buffer capability (section 6):
the `width` bytes of the storage from `address` on. -/
def readBytes (data : ℕ → ℕ) (address width : ℕ) : List ℕ :=
  (List.range width).map fun i => data (address + i)

/-- Modelled from the spec: the in-place store of `bytes` into the storage from
`address` on (section 4.2). -/
def writeBytes (data : ℕ → ℕ) (address : ℕ) (bytes : List ℕ) : ℕ → ℕ :=
  fun i => if address ≤ i ∧ i < address + bytes.length then bytes.getD (i - address) 0 else data i

/-- Modelled from the spec: `DataViewObject::getViewValue` is not in src; the getter
of section 4.2.  The detachment check comes first: every get call on a view of a
detached buffer fails with `DetachedBufferError` (sections 4.2 and 8), whatever
its arguments are.  Then the request offset is converted to an index and
`littleEndian` to a boolean, the call fails with `AccessOutOfRangeError` when
`requestOffset + width > view.byteLength`, and else decodes the bytes at the
request offset of the view. -/
def getViewValue (c : ValueConversion) : GetViewValue :=
  fun state view requestIndex littleEndian type =>
    if (state.buffers view.buffer).isDetachedBuffer then throw detachedBufferError
    else do
      let getIndex ← requestIndex.toIndex c
      let isLittleEndian := littleEndian.toBoolean
      if Double.lt view.bytelength (Double.fin ((getIndex + type.width : ℕ) : ℚ)) then
        throw accessOutOfRangeError
      else
        pure (Value.number (type.decode (decodeBytes isLittleEndian
          (readBytes (state.buffers view.buffer).data (view.byteoffset.toNat + getIndex)
            type.width))))

/-- Modelled from the spec: `DataViewObject::setViewValue` is not in src; the setter
of section 4.2: the same checks and conversions as the getter, the detachment
check first, then the value is converted to a number, encoded in the format and
stored in place; no byte is written unless every check has passed. -/
def setViewValue (c : ValueConversion) : SetViewValue :=
  fun state view requestIndex littleEndian type value =>
    if (state.buffers view.buffer).isDetachedBuffer then throw detachedBufferError
    else do
      let getIndex ← requestIndex.toIndex c
      let isLittleEndian := littleEndian.toBoolean
      if Double.lt view.bytelength (Double.fin ((getIndex + type.width : ℕ) : ℚ)) then
        throw accessOutOfRangeError
      else do
        let number ← value.toNumber c
        let bytes := encodeBytes type.width isLittleEndian (type.encode number)
        let buffer := state.buffers view.buffer
        pure (Value.undefined,
          { state with
            buffers := Function.update state.buffers view.buffer
              { buffer with
                data := writeBytes buffer.data (view.byteoffset.toNat + getIndex) bytes } })

/-- The view of the sample scenario: the whole of a buffer of 16 bytes. -/
def sampleView : DataViewObject :=
  { buffer := 7, byteoffset := Double.fin 0, bytelength := Double.fin 16 }

/-- The sample state after `setUint32(0, 0x01020304, true)` on `sampleView`. -/
def sampleStateAfterSet : ExecutionState :=
  { bufferState 16 false with
    buffers := Function.update (bufferState 16 false).buffers 7
      { bytelength := 16, detached := false,
        data := writeBytes (fun _ => 0) 0 [4, 3, 2, 1] } }

/-! ## Lemmas -/

/-! ## Arithmetic of doubles on integers -/

theorem Double.roundHalfEven_intCast (z : ℤ) : Double.roundHalfEven (z : ℚ) = z := by
  simp [Double.roundHalfEven]

theorem Double.ulpExponent_natCast_nonpos (n : ℕ) (h : n < 2 ^ 53) :
    Double.ulpExponent (n : ℚ) ≤ 0 := by
  unfold Double.ulpExponent
  have habs : |(n : ℚ)| = (n : ℚ) := abs_of_nonneg (Nat.cast_nonneg n)
  rw [habs, Int.log_natCast]
  rcases Nat.eq_zero_or_pos n with h0 | h0
  · subst h0
    simp
  · have : Nat.log 2 n < 53 := Nat.log_lt_of_lt_pow (Nat.pos_iff_ne_zero.mp h0) h
    omega

theorem Double.round_natCast (n : ℕ) (h : n < 2 ^ 53) : Double.round (n : ℚ) = Double.fin n := by
  have he := Double.ulpExponent_natCast_nonpos n h
  obtain ⟨k, hk⟩ : ∃ k : ℕ, Double.ulpExponent (n : ℚ) = -(k : ℤ) :=
    ⟨(-Double.ulpExponent (n : ℚ)).toNat, by omega⟩
  have h2 : ((2 : ℚ) ^ k) ≠ 0 := pow_ne_zero _ (by norm_num)
  have hq : (n : ℚ) / (2 : ℚ) ^ (-(k : ℤ)) = (((n * 2 ^ k : ℕ) : ℤ) : ℚ) := by
    rw [zpow_neg, zpow_natCast]
    push_cast
    field_simp
  have hr : ((Double.roundHalfEven ((n : ℚ) / (2 : ℚ) ^ (-(k : ℤ))) : ℤ) : ℚ) * (2 : ℚ) ^ (-(k : ℤ))
      = (n : ℚ) := by
    rw [hq, Double.roundHalfEven_intCast, zpow_neg, zpow_natCast]
    push_cast
    field_simp
  have hlt : ¬ ((2 : ℚ) ^ (1024 : ℕ) ≤ |(n : ℚ)|) := by
    rw [abs_of_nonneg (Nat.cast_nonneg n), not_le]
    have h1 : (n : ℚ) < (2 : ℚ) ^ (53 : ℕ) := by exact_mod_cast h
    have h3 : (2 : ℚ) ^ (53 : ℕ) ≤ (2 : ℚ) ^ (1024 : ℕ) :=
      pow_le_pow_right₀ (by norm_num) (by norm_num)
    linarith
  unfold Double.round
  simp only [hk, hr, hlt, if_false]

theorem Double.floor_le_roundHalfEven (x : ℚ) : ⌊x⌋ ≤ Double.roundHalfEven x := by
  unfold Double.roundHalfEven
  split_ifs <;> omega

theorem Double.round_of_two_pow_le (x : ℚ) (h : (2 : ℚ) ^ (53 : ℕ) ≤ x) :
    Double.round x = Double.posInf ∨ ∃ r : ℚ, Double.round x = Double.fin r ∧ (2 : ℚ) ^ (53 : ℕ) ≤ r := by
  have hx : 0 < x := lt_of_lt_of_le (by positivity) h
  have habs : |x| = x := abs_of_pos hx
  have hlog : (53 : ℤ) ≤ Int.log 2 x := by
    rw [← Int.zpow_le_iff_le_log (by norm_num) hx]
    have : ((2 : ℕ) : ℚ) ^ (53 : ℤ) = (2 : ℚ) ^ (53 : ℕ) := by norm_num
    rw [this]
    exact h
  have hu : Double.ulpExponent x = Int.log 2 x - 52 := by
    unfold Double.ulpExponent
    rw [habs]
    omega
  have hpow : (2 : ℚ) ^ Int.log 2 x ≤ x := by
    have := Int.zpow_log_le_self (R := ℚ) (b := 2) (r := x) (by norm_num) hx
    simpa using this
  have hupos : (0 : ℚ) < (2 : ℚ) ^ (Int.log 2 x - 52) := by positivity
  -- the scaled value is at least `2^52`
  have hy : (((2 : ℤ) ^ (52 : ℕ) : ℤ) : ℚ) ≤ x / (2 : ℚ) ^ (Int.log 2 x - 52) := by
    rw [le_div_iff₀ hupos]
    have : (((2 : ℤ) ^ (52 : ℕ) : ℤ) : ℚ) * (2 : ℚ) ^ (Int.log 2 x - 52) = (2 : ℚ) ^ Int.log 2 x := by
      have h52 : (((2 : ℤ) ^ (52 : ℕ) : ℤ) : ℚ) = (2 : ℚ) ^ (52 : ℤ) := by norm_num
      rw [h52, ← zpow_add₀ (by norm_num : (2 : ℚ) ≠ 0)]
      congr 1
      omega
    rw [this]
    exact hpow
  have hfl : (2 : ℤ) ^ (52 : ℕ) ≤ Double.roundHalfEven (x / (2 : ℚ) ^ (Int.log 2 x - 52)) :=
    le_trans (Int.le_floor.mpr hy) (Double.floor_le_roundHalfEven _)
  have hr : (2 : ℚ) ^ (53 : ℕ) ≤
      ((Double.roundHalfEven (x / (2 : ℚ) ^ (Int.log 2 x - 52)) : ℤ) : ℚ) * (2 : ℚ) ^ (Int.log 2 x - 52) := by
    have h1 : (((2 : ℤ) ^ (52 : ℕ) : ℤ) : ℚ) ≤
        ((Double.roundHalfEven (x / (2 : ℚ) ^ (Int.log 2 x - 52)) : ℤ) : ℚ) := by
      exact_mod_cast hfl
    have h2 : (2 : ℚ) ^ (1 : ℤ) ≤ (2 : ℚ) ^ (Int.log 2 x - 52) :=
      zpow_le_zpow_right₀ (by norm_num) (by omega)
    have h3 : (2 : ℚ) ^ (53 : ℕ) = (((2 : ℤ) ^ (52 : ℕ) : ℤ) : ℚ) * (2 : ℚ) ^ (1 : ℤ) := by norm_num
    rw [h3]
    exact mul_le_mul h1 h2 (by positivity) (le_trans (by positivity) h1)
  unfold Double.round
  simp only [hu]
  split_ifs with h1 h2
  · exact Or.inl rfl
  · exact absurd (lt_of_lt_of_le (by positivity) hr) h2
  · exact Or.inr ⟨_, rfl, hr⟩

theorem Double.toInteger_natCast (n : ℕ) : Double.toInteger (Double.fin n) = Double.fin n := by
  simp [Double.toInteger]

theorem Double.ofNat_of_lt (n : ℕ) (h : n < 2 ^ 53) : Double.ofNat n = Double.fin n :=
  Double.round_natCast n h

theorem Double.sub_natCast (L o : ℕ) (hL : L < 2 ^ 53) (ho : o ≤ L) :
    Double.sub (Double.fin L) (Double.fin o) = Double.fin ((L - o : ℕ) : ℚ) := by
  have h : (L : ℚ) - (o : ℚ) = ((L - o : ℕ) : ℚ) := by
    rw [Nat.cast_sub ho]
  show Double.round ((L : ℚ) - (o : ℚ)) = _
  rw [h]
  exact Double.round_natCast _ (by omega)

theorem Double.gt_add_natCast (o len L : ℕ) (hL : L < 2 ^ 53) :
    Double.gt (Double.add (Double.fin o) (Double.fin len)) (Double.fin L) = decide (L < o + len) := by
  have hsum : (o : ℚ) + (len : ℚ) = ((o + len : ℕ) : ℚ) := by push_cast; rfl
  show Double.lt (Double.fin L) (Double.round ((o : ℚ) + (len : ℚ))) = _
  rw [hsum]
  by_cases hs : o + len < 2 ^ 53
  · rw [Double.round_natCast _ hs]
    show decide ((L : ℚ) < ((o + len : ℕ) : ℚ)) = _
    exact decide_eq_decide.mpr Nat.cast_lt
  · have hge : (2 : ℚ) ^ (53 : ℕ) ≤ ((o + len : ℕ) : ℚ) := by
      have : 2 ^ 53 ≤ o + len := by omega
      exact_mod_cast this
    have hLq : (L : ℚ) < (2 : ℚ) ^ (53 : ℕ) := by exact_mod_cast hL
    have hlt : L < o + len := by omega
    rcases Double.round_of_two_pow_le _ hge with h | ⟨r, h, hr⟩
    · rw [h]
      simp [Double.lt, hlt]
    · rw [h]
      have : (L : ℚ) < r := lt_of_lt_of_le hLq hr
      simp [Double.lt, this, hlt]

/-- An offset that passes the test of line 54 is `+∞` or a natural number, and
is its own ToInteger. -/
theorem Double.offset_accepted (n : Double)
    (h : (Double.ne n (Double.toInteger n) || Double.lt (Double.toInteger n) (Double.fin 0)) = false) :
    (n = Double.posInf ∧ Double.toInteger n = Double.posInf) ∨
      ∃ k : ℕ, n = Double.fin k ∧ Double.toInteger n = Double.fin k := by
  cases n with
  | nan => simp [Double.toInteger, Double.ne, Double.eq] at h
  | posInf => exact Or.inl ⟨rfl, rfl⟩
  | negInf => simp [Double.toInteger, Double.ne, Double.eq, Double.lt] at h
  | fin q =>
    right
    by_cases hq : q < 0
    · simp only [Double.toInteger, hq, if_true, Double.ne, Double.eq, Double.lt, Bool.or_eq_false_iff,
        Bool.not_eq_false', decide_eq_true_eq, decide_eq_false_iff_not, not_lt] at h
      have h1 : (0 : ℚ) ≤ q := by rw [h.1]; exact h.2
      exact absurd hq (not_lt.mpr h1)
    · simp only [Double.toInteger, hq, if_false, Double.ne, Double.eq, Double.lt, Bool.or_eq_false_iff,
        Bool.not_eq_false', decide_eq_true_eq, decide_eq_false_iff_not, not_lt] at h
      have hfl : (0 : ℤ) ≤ ⌊q⌋ := Int.floor_nonneg.mpr (not_lt.mp hq)
      refine ⟨⌊q⌋.toNat, ?_, ?_⟩
      · have : ((⌊q⌋.toNat : ℕ) : ℚ) = ((⌊q⌋ : ℤ) : ℚ) := by
          rw [← Int.cast_natCast, Int.toNat_of_nonneg hfl]
        rw [this, ← h.1]
      · have : ((⌊q⌋.toNat : ℕ) : ℚ) = ((⌊q⌋ : ℤ) : ℚ) := by
          rw [← Int.cast_natCast, Int.toNat_of_nonneg hfl]
        simp [Double.toInteger, hq, this]

/-- ToInteger yields an infinity or an integer. -/
theorem Double.toInteger_cases (n : Double) :
    Double.toInteger n = Double.posInf ∨ Double.toInteger n = Double.negInf ∨
      ∃ z : ℤ, Double.toInteger n = Double.fin (z : ℚ) := by
  cases n with
  | nan => exact Or.inr (Or.inr ⟨0, by simp [Double.toInteger]⟩)
  | posInf => exact Or.inl rfl
  | negInf => exact Or.inr (Or.inl rfl)
  | fin q =>
    right; right
    by_cases hq : q < 0
    · exact ⟨⌈q⌉, by simp [Double.toInteger, hq]⟩
    · exact ⟨⌊q⌋, by simp [Double.toInteger, hq]⟩

theorem Double.le_fin (a b : ℚ) : Double.le (Double.fin a) (Double.fin b) = decide (a ≤ b) := by
  show (decide (a < b) || decide (a = b)) = decide (a ≤ b)
  rw [Bool.eq_iff_iff]
  simp only [Bool.or_eq_true, decide_eq_true_eq]
  exact le_iff_lt_or_eq.symm

theorem Double.min_fin (a b : ℚ) :
    Double.min (Double.fin a) (Double.fin b) = if b < a then Double.fin b else Double.fin a := by
  show (if decide (b < a) = true then Double.fin b else Double.fin a) = _
  simp only [decide_eq_true_eq]

/-- The clamp of `toLength` applied to a ToInteger value is a natural number of at
most `2^53 - 1`. -/
theorem Double.toLength_clamp (d : Double)
    (hd : d = Double.posInf ∨ d = Double.negInf ∨ ∃ z : ℤ, d = Double.fin (z : ℚ)) :
    ∃ l : ℕ, l ≤ 2 ^ 53 - 1 ∧
      (if Double.le d (Double.fin 0) then Double.fin 0
        else Double.min d (Double.fin (2 ^ 53 - 1))) = Double.fin (l : ℚ) := by
  have hmax : (((2 ^ 53 - 1 : ℕ) : ℕ) : ℚ) = (2 : ℚ) ^ 53 - 1 := by norm_num
  rcases hd with h | h | ⟨z, h⟩
  · subst h
    refine ⟨2 ^ 53 - 1, le_refl _, ?_⟩
    rw [hmax]
    rfl
  · subst h
    exact ⟨0, Nat.zero_le _, by rw [Nat.cast_zero]; rfl⟩
  · subst h
    rw [Double.le_fin, Double.min_fin]
    by_cases hz : z ≤ 0
    · refine ⟨0, Nat.zero_le _, ?_⟩
      have hq : (z : ℚ) ≤ 0 := by exact_mod_cast hz
      rw [Nat.cast_zero, if_pos (decide_eq_true hq)]
    · have hzpos : 0 < z := not_le.mp hz
      have hq : ¬ ((z : ℚ) ≤ 0) := by
        intro h
        exact hz (by exact_mod_cast h)
      have hdec : ¬ (decide ((z : ℚ) ≤ 0) = true) := by simpa using hq
      rw [if_neg hdec]
      by_cases hbig : (2 : ℤ) ^ 53 - 1 < z
      · refine ⟨2 ^ 53 - 1, le_refl _, ?_⟩
        have hb : ((2 : ℚ) ^ 53 - 1 < (z : ℚ)) := by exact_mod_cast hbig
        rw [if_pos hb, hmax]
      · refine ⟨z.toNat, ?_, ?_⟩
        · have : z ≤ 2 ^ 53 - 1 := not_lt.mp hbig
          omega
        · have hb : ¬ ((2 : ℚ) ^ 53 - 1 < (z : ℚ)) := by
            intro h
            exact hbig (by exact_mod_cast h)
          have hc : ((z.toNat : ℕ) : ℚ) = (z : ℚ) := by
            rw [← Int.cast_natCast, Int.toNat_of_nonneg (le_of_lt hzpos)]
          rw [if_neg hb, hc]

/-- The call `toLength` throws or returns a natural number of at most `2^53 - 1`. -/
theorem Value.toLength_cases (c : ValueConversion) (v : Value) :
    (∃ e, Value.toLength c v = Except.error e) ∨
      ∃ l : ℕ, l ≤ 2 ^ 53 - 1 ∧ Value.toLength c v = Except.ok (Double.fin (l : ℚ)) := by
  unfold Value.toLength
  cases hn : Value.toNumber c v with
  | error e => exact Or.inl ⟨e, rfl⟩
  | ok n =>
    right
    obtain ⟨l, hl, heq⟩ := Double.toLength_clamp (Double.toInteger n) (Double.toInteger_cases n)
    refine ⟨l, hl, ?_⟩
    show (if Double.le (Double.toInteger n) (Double.fin 0) then (pure (Double.fin 0) : Except Thrown Double)
        else pure (Double.min (Double.toInteger n) (Double.fin (2 ^ 53 - 1)))) = _
    rw [← heq]
    split_ifs <;> rfl

theorem Value.toLength_natCast (c : ValueConversion) (l : ℕ) (hl : l ≤ 2 ^ 53 - 1) :
    (Value.number (Double.fin l)).toLength c = Except.ok (Double.fin l) := by
  show (if Double.le (Double.toInteger (Double.fin l)) (Double.fin 0) then
      (pure (Double.fin 0) : Except Thrown Double)
    else pure (Double.min (Double.toInteger (Double.fin l)) (Double.fin (2 ^ 53 - 1)))) = _
  rw [Double.toInteger_natCast, Double.le_fin, Double.min_fin]
  by_cases h0 : l = 0
  · subst h0
    simp
    rfl
  · have h1 : ¬ ((l : ℚ) ≤ 0) := by
      intro h
      have : l ≤ 0 := by exact_mod_cast h
      omega
    have h2 : ¬ ((2 : ℚ) ^ 53 - 1 < (l : ℚ)) := by
      intro h
      have h3 : ((2 ^ 53 - 1 : ℕ) : ℚ) < (l : ℚ) := by
        have : ((2 ^ 53 - 1 : ℕ) : ℚ) = (2 : ℚ) ^ 53 - 1 := by norm_num
        rw [this]
        exact h
      have : 2 ^ 53 - 1 < l := by exact_mod_cast h3
      omega
    rw [if_neg (by simpa using h1), if_neg h2]
    rfl

/-! ## The constructor, block by block -/

theorem dataViewConstructorOffset_omitted (c : ValueConversion) (args : List Value)
    (h : args.length < 2) : dataViewConstructorOffset c args = Except.ok (Double.fin 0) := by
  unfold dataViewConstructorOffset
  rw [if_neg (by omega)]
  rfl

theorem dataViewConstructorOffset_provided (c : ValueConversion) (args : List Value) (n : Double)
    (h : 2 ≤ args.length) (hn : (argv args 1).toNumber c = Except.ok n) :
    dataViewConstructorOffset c args =
      if (Double.ne n (Double.toInteger n) || Double.lt (Double.toInteger n) (Double.fin 0)) = true then
        Except.error (Thrown.builtinError ErrorCode.RangeError "DataView" false ""
          ErrorMessage.InvalidArrayBufferOffset)
      else Except.ok (Double.toInteger n) := by
  unfold dataViewConstructorOffset
  rw [if_pos h, hn]
  rfl

theorem dataViewConstructorOffset_natCast (c : ValueConversion) (args : List Value) (k : ℕ)
    (h : 2 ≤ args.length) (hn : (argv args 1).toNumber c = Except.ok (Double.fin k)) :
    dataViewConstructorOffset c args = Except.ok (Double.fin k) := by
  rw [dataViewConstructorOffset_provided c args _ h hn, Double.toInteger_natCast]
  have : (Double.ne (Double.fin k) (Double.fin k) || Double.lt (Double.fin (k : ℚ)) (Double.fin 0)) = false := by
    simp [Double.ne, Double.eq, Double.lt]
  rw [this]
  rfl

theorem builtinDataViewConstructor_arrayBuffer (c : ValueConversion) (state : ExecutionState)
    (thisValue : Value) (args : List Value) (buffer : ℕ)
    (hbuf : argv args 0 = Value.object (Object.arrayBuffer buffer)) :
    builtinDataViewConstructor c state thisValue args true =
      (dataViewConstructorOffset c args >>=
        dataViewConstructorBody c state thisValue.asArrayBufferView buffer args) := by
  unfold builtinDataViewConstructor dataViewConstructorOffset dataViewConstructorBody
  simp only [hbuf]
  by_cases h2 : 2 ≤ args.length
  · simp only [h2, if_true]
    cases (argv args 1).toNumber c with
    | error e => rfl
    | ok n =>
      cases hb : (Double.ne n (Double.toInteger n) || Double.lt (Double.toInteger n) (Double.fin 0))
      all_goals
        cases hd : (state.buffers buffer).isDetachedBuffer
        all_goals
          cases hg : Double.gt (Double.toInteger n) (Double.ofNat (state.buffers buffer).bytelength)
          all_goals
            by_cases h3 : 3 ≤ args.length
            all_goals
              cases hu : (argv args 2).isUndefined
              all_goals
                cases hl : (argv args 2).toLength c
                all_goals
                  simp only [hb, hd, hg, h3, hu, hl, bind, Except.bind, pure, Except.pure, throw,
                    throwThe, MonadExceptOf.throw, if_true, if_false, Bool.false_eq_true,
                    Bool.not_true, Bool.not_false, Bool.and_true, Bool.and_false, decide_True,
                    decide_False]
                  try split_ifs
                  all_goals rfl
  · simp only [h2, if_false]
    cases hd : (state.buffers buffer).isDetachedBuffer
    all_goals
      cases hg : Double.gt (Double.fin 0) (Double.ofNat (state.buffers buffer).bytelength)
      all_goals
        by_cases h3 : 3 ≤ args.length
        all_goals
          cases hu : (argv args 2).isUndefined
          all_goals
            cases hl : (argv args 2).toLength c
            all_goals
              simp only [hd, hg, h3, hu, hl, bind, Except.bind, pure, Except.pure, throw,
                throwThe, MonadExceptOf.throw, if_true, if_false, Bool.false_eq_true,
                Bool.not_true, Bool.not_false, Bool.and_true, Bool.and_false, decide_True,
                decide_False]
              try split_ifs
              all_goals rfl

theorem dataViewConstructorBody_detached (c : ValueConversion) (state : ExecutionState)
    (obj : DataViewObject) (buffer : ℕ) (args : List Value) (byteOffset : Double)
    (hd : (state.buffers buffer).detached = true) :
    dataViewConstructorBody c state obj buffer args byteOffset =
      Except.error (Thrown.builtinError ErrorCode.TypeError "DataView" false ""
        (ErrorMessage.literal "%s: ArrayBuffer is detached buffer")) := by
  unfold dataViewConstructorBody ArrayBufferObject.isDetachedBuffer
  rw [if_pos hd]
  rfl

theorem dataViewConstructorBody_no_length (c : ValueConversion) (state : ExecutionState)
    (obj : DataViewObject) (buffer : ℕ) (args : List Value) (L o : ℕ)
    (hd : (state.buffers buffer).detached = false) (hlen : (state.buffers buffer).bytelength = L)
    (hL : L < 2 ^ 53) (ho : o ≤ L) (harg : args.length < 3 ∨ argv args 2 = Value.undefined) :
    dataViewConstructorBody c state obj buffer args (Double.fin o) =
      Except.ok (Value.object (Object.dataView
        { buffer := buffer, byteoffset := Double.fin o, bytelength := Double.fin ((L - o : ℕ) : ℚ) })) := by
  unfold dataViewConstructorBody ArrayBufferObject.isDetachedBuffer
  rw [hd, hlen, Double.ofNat_of_lt L hL]
  have h1 : Double.gt (Double.fin (o : ℚ)) (Double.fin (L : ℚ)) = false := by
    show decide ((L : ℚ) < (o : ℚ)) = false
    rw [decide_eq_false_iff_not, not_lt]
    exact_mod_cast ho
  have h2 : (decide (3 ≤ args.length) && !(argv args 2).isUndefined) = false := by
    rcases harg with h | h
    · have : ¬ (3 ≤ args.length) := by omega
      simp [this]
    · simp [h, Value.isUndefined]
  simp only [h1, h2, Bool.false_eq_true, if_false, Double.sub_natCast L o hL ho]
  rfl

theorem dataViewConstructorOffset_ok (c : ValueConversion) (args : List Value) (byteOffset : Double)
    (h : dataViewConstructorOffset c args = Except.ok byteOffset) :
    byteOffset = Double.posInf ∨ ∃ k : ℕ, byteOffset = Double.fin k := by
  by_cases h2 : 2 ≤ args.length
  · cases hn : (argv args 1).toNumber c with
    | error e =>
      unfold dataViewConstructorOffset at h
      rw [if_pos h2, hn] at h
      cases h
    | ok n =>
      rw [dataViewConstructorOffset_provided c args n h2 hn] at h
      cases hb : (Double.ne n (Double.toInteger n) || Double.lt (Double.toInteger n) (Double.fin 0)) with
      | true =>
        rw [hb, if_pos rfl] at h
        cases h
      | false =>
        rw [hb, if_neg (by decide)] at h
        cases h
        rcases Double.offset_accepted n hb with ⟨_, h1⟩ | ⟨k, _, h1⟩
        · exact Or.inl h1
        · exact Or.inr ⟨k, h1⟩
  · rw [dataViewConstructorOffset_omitted c args (by omega)] at h
    cases h
    exact Or.inr ⟨0, by simp⟩

/-- The body of the constructor on a buffer that is not detached, for an offset
that is a natural number. -/
theorem dataViewConstructorBody_natCast (c : ValueConversion) (state : ExecutionState)
    (obj : DataViewObject) (buffer : ℕ) (args : List Value) (k : ℕ)
    (hd : (state.buffers buffer).detached = false)
    (hL : (state.buffers buffer).bytelength < 2 ^ 53) :
    dataViewConstructorBody c state obj buffer args (Double.fin k) =
      if (state.buffers buffer).bytelength < k then
        Except.error (Thrown.builtinError ErrorCode.RangeError "DataView" false ""
          ErrorMessage.InvalidArrayBufferOffset)
      else if (decide (3 ≤ args.length) && !(argv args 2).isUndefined) = true then
        (argv args 2).toLength c >>= fun byteLength =>
          if Double.gt (Double.add (Double.fin k) byteLength)
              (Double.fin (state.buffers buffer).bytelength) = true then
            Except.error (Thrown.builtinError ErrorCode.RangeError "DataView" false ""
              ErrorMessage.InvalidArrayBufferOffset)
          else
            Except.ok (Value.object (Object.dataView
              { buffer := buffer, byteoffset := Double.fin k, bytelength := byteLength }))
      else
        Except.ok (Value.object (Object.dataView
          { buffer := buffer, byteoffset := Double.fin k,
            bytelength := Double.fin (((state.buffers buffer).bytelength - k : ℕ) : ℚ) })) := by
  unfold dataViewConstructorBody ArrayBufferObject.isDetachedBuffer
  rw [hd, Double.ofNat_of_lt _ hL]
  have hgt : Double.gt (Double.fin (k : ℚ)) (Double.fin ((state.buffers buffer).bytelength : ℚ)) =
      decide ((state.buffers buffer).bytelength < k) :=
    decide_eq_decide.mpr Nat.cast_lt
  simp only [Bool.false_eq_true, if_false, hgt, decide_eq_true_eq]
  by_cases hk : (state.buffers buffer).bytelength < k
  · rw [if_pos hk, if_pos hk]
    rfl
  · rw [if_neg hk, if_neg hk]
    cases hb : (decide (3 ≤ args.length) && !(argv args 2).isUndefined) with
    | true =>
      simp only [if_true]
      cases (argv args 2).toLength c with
      | error e => rfl
      | ok byteLength =>
        show (if _ then _ else _) >>= _ = (if _ then _ else _)
        split_ifs <;> rfl
    | false =>
      simp only [Bool.false_eq_true, if_false]
      rw [Double.sub_natCast _ k hL (not_lt.mp hk)]
      rfl

theorem dataViewConstructorBody_posInf (c : ValueConversion) (state : ExecutionState)
    (obj : DataViewObject) (buffer : ℕ) (args : List Value)
    (hd : (state.buffers buffer).detached = false)
    (hL : (state.buffers buffer).bytelength < 2 ^ 53) :
    dataViewConstructorBody c state obj buffer args Double.posInf =
      Except.error (Thrown.builtinError ErrorCode.RangeError "DataView" false ""
        ErrorMessage.InvalidArrayBufferOffset) := by
  unfold dataViewConstructorBody ArrayBufferObject.isDetachedBuffer
  rw [hd, Double.ofNat_of_lt _ hL]
  rfl

/-- A successful run of the constructor body returns a view on the given buffer at
the given offset. -/
theorem dataViewConstructorBody_stores (c : ValueConversion) (state : ExecutionState)
    (obj : DataViewObject) (buffer : ℕ) (args : List Value) (byteOffset : Double) (v : Value)
    (h : dataViewConstructorBody c state obj buffer args byteOffset = Except.ok v) :
    ∃ byteLength : Double, v = Value.object (Object.dataView
      { buffer := buffer, byteoffset := byteOffset, bytelength := byteLength }) := by
  unfold dataViewConstructorBody at h
  cases hd : (state.buffers buffer).isDetachedBuffer with
  | true => rw [hd, if_pos rfl] at h; cases h
  | false =>
    rw [hd, if_neg (by decide)] at h
    cases hg : Double.gt byteOffset (Double.ofNat (state.buffers buffer).bytelength) with
    | true => simp only [hg, if_true] at h; cases h
    | false =>
      simp only [hg, Bool.false_eq_true, if_false] at h
      cases hb : (decide (3 ≤ args.length) && !(argv args 2).isUndefined) with
      | false =>
        simp only [hb, Bool.false_eq_true, if_false] at h
        cases h
        exact ⟨_, rfl⟩
      | true =>
        simp only [hb, if_true] at h
        cases hl : (argv args 2).toLength c with
        | error e => rw [hl] at h; cases h
        | ok byteLength =>
          rw [hl] at h
          cases hs : Double.gt (Double.add byteOffset byteLength)
              (Double.ofNat (state.buffers buffer).bytelength) with
          | true =>
            replace h : ((if Double.gt (Double.add byteOffset byteLength)
              (Double.ofNat (state.buffers buffer).bytelength) = true then
                (throw (Thrown.builtinError ErrorCode.RangeError "DataView" false ""
                  ErrorMessage.InvalidArrayBufferOffset) : Except Thrown Double)
              else pure byteLength) >>= fun byteLength =>
                (pure (Value.object (Object.dataView (obj.setBuffer buffer byteOffset byteLength))) :
                  Except Thrown Value)) = Except.ok v := h
            rw [hs, if_pos rfl] at h
            cases h
          | false =>
            replace h : ((if Double.gt (Double.add byteOffset byteLength)
              (Double.ofNat (state.buffers buffer).bytelength) = true then
                (throw (Thrown.builtinError ErrorCode.RangeError "DataView" false ""
                  ErrorMessage.InvalidArrayBufferOffset) : Except Thrown Double)
              else pure byteLength) >>= fun byteLength =>
                (pure (Value.object (Object.dataView (obj.setBuffer buffer byteOffset byteLength))) :
                  Except Thrown Value)) = Except.ok v := h
            rw [hs, if_neg (by decide)] at h
            cases h
            exact ⟨byteLength, rfl⟩

/-- A sample construction: offset 4 and no length on a live buffer of 16 bytes. -/
theorem sample_construction :
    builtinDataViewConstructor sampleConversion (bufferState 16 false) freshView
        [Value.object (Object.arrayBuffer 7), Value.number (Double.fin ((4 : ℕ) : ℚ))] true =
      Except.ok (Value.object (Object.dataView
        { buffer := 7, byteoffset := Double.fin ((4 : ℕ) : ℚ),
          bytelength := Double.fin (((16 - 4 : ℕ) : ℕ) : ℚ) })) := by
  rw [builtinDataViewConstructor_arrayBuffer sampleConversion (bufferState 16 false) freshView
      [Value.object (Object.arrayBuffer 7), Value.number (Double.fin ((4 : ℕ) : ℚ))] 7 rfl,
    dataViewConstructorOffset_natCast sampleConversion
      [Value.object (Object.arrayBuffer 7), Value.number (Double.fin ((4 : ℕ) : ℚ))] 4
      (by decide) rfl]
  exact dataViewConstructorBody_no_length sampleConversion (bufferState 16 false) _ 7
    [Value.object (Object.arrayBuffer 7), Value.number (Double.fin ((4 : ℕ) : ℚ))] 16 4
    rfl rfl (by norm_num) (by norm_num) (Or.inl (by decide))

/-! ## The claims -/

/-- C1: on a buffer that is not detached and has length `L` (below `2^53`, so that
the `double` of line 63 holds it exactly), a constructing call whose offset argument
converts to an integer `o` with `0 ≤ o ≤ L`, and whose length argument is omitted
or `undefined`, returns a view with `byteOffset = o` and `byteLength = L - o`; with
the offset omitted as well it returns a view with `byteOffset = 0` and
`byteLength = L`. -/
theorem construct_without_length (c : ValueConversion) (state : ExecutionState)
    (thisValue : Value) (args : List Value) (buffer L o : ℕ)
    (hbuf : argv args 0 = Value.object (Object.arrayBuffer buffer))
    (hd : (state.buffers buffer).detached = false)
    (hlen : (state.buffers buffer).bytelength = L) (hL : L < 2 ^ 53) (ho : o ≤ L)
    (harg : args.length < 3 ∨ argv args 2 = Value.undefined) :
    (2 ≤ args.length → (argv args 1).toNumber c = Except.ok (Double.fin o) →
      builtinDataViewConstructor c state thisValue args true =
        Except.ok (Value.object (Object.dataView
          { buffer := buffer, byteoffset := Double.fin o,
            bytelength := Double.fin ((L - o : ℕ) : ℚ) }))) ∧
    (args.length < 2 →
      builtinDataViewConstructor c state thisValue args true =
        Except.ok (Value.object (Object.dataView
          { buffer := buffer, byteoffset := Double.fin 0, bytelength := Double.fin (L : ℚ) }))) := by
  constructor
  · intro h2 hn
    rw [builtinDataViewConstructor_arrayBuffer c state thisValue args buffer hbuf,
      dataViewConstructorOffset_natCast c args o h2 hn]
    exact dataViewConstructorBody_no_length c state _ buffer args L o hd hlen hL ho harg
  · intro h2
    rw [builtinDataViewConstructor_arrayBuffer c state thisValue args buffer hbuf,
      dataViewConstructorOffset_omitted c args h2]
    have h := dataViewConstructorBody_no_length c state thisValue.asArrayBufferView buffer args L 0
      hd hlen hL (Nat.zero_le L) harg
    simpa using h

theorem construct_without_length_witness :
    builtinDataViewConstructor sampleConversion (bufferState 16 false) freshView
        [Value.object (Object.arrayBuffer 7), Value.number (Double.fin ((4 : ℕ) : ℚ))] true =
      Except.ok (Value.object (Object.dataView
        { buffer := 7, byteoffset := Double.fin ((4 : ℕ) : ℚ),
          bytelength := Double.fin (((16 - 4 : ℕ) : ℕ) : ℚ) })) :=
  (construct_without_length sampleConversion (bufferState 16 false) freshView
    [Value.object (Object.arrayBuffer 7), Value.number (Double.fin ((4 : ℕ) : ℚ))] 7 16 4
    rfl rfl rfl (by norm_num) (by norm_num) (Or.inl (by decide))).1 (by decide) rfl

/-- C2: whenever `builtinDataViewConstructor` returns, for any arguments and any heap
of buffers with lengths below `2^53`, the values it stored with `setBuffer` are a
natural number `byteOffset` and a natural number `byteLength` with
`byteOffset + byteLength` at most the length of the buffer. -/
theorem construct_invariant (c : ValueConversion) (state : ExecutionState) (thisValue : Value)
    (args : List Value) (isNewExpression : Bool) (v : Value)
    (hL : ∀ r, (state.buffers r).bytelength < 2 ^ 53)
    (h : builtinDataViewConstructor c state thisValue args isNewExpression = Except.ok v) :
    ∃ buffer o len : ℕ, argv args 0 = Value.object (Object.arrayBuffer buffer) ∧
      v = Value.object (Object.dataView
        { buffer := buffer, byteoffset := Double.fin o, bytelength := Double.fin len }) ∧
      o + len ≤ (state.buffers buffer).bytelength := by
  cases isNewExpression with
  | false => cases h
  | true =>
    cases h0 : argv args 0 with
    | object ob =>
      cases ob with
      | arrayBuffer buffer =>
        rw [builtinDataViewConstructor_arrayBuffer c state thisValue args buffer h0] at h
        cases hoff : dataViewConstructorOffset c args with
        | error e => rw [hoff] at h; cases h
        | ok byteOffset =>
          rw [hoff] at h
          replace h : dataViewConstructorBody c state thisValue.asArrayBufferView buffer args
            byteOffset = Except.ok v := h
          cases hd : (state.buffers buffer).detached with
          | true => rw [dataViewConstructorBody_detached c state _ buffer args _ hd] at h; cases h
          | false =>
            rcases dataViewConstructorOffset_ok c args byteOffset hoff with hb | ⟨k, hb⟩
            · subst hb
              rw [dataViewConstructorBody_posInf c state _ buffer args hd (hL buffer)] at h
              cases h
            · subst hb
              rw [dataViewConstructorBody_natCast c state _ buffer args k hd (hL buffer)] at h
              by_cases hk : (state.buffers buffer).bytelength < k
              · rw [if_pos hk] at h; cases h
              · rw [if_neg hk] at h
                cases hb : (decide (3 ≤ args.length) && !(argv args 2).isUndefined) with
                | false =>
                  rw [hb, if_neg (by decide)] at h
                  cases h
                  exact ⟨buffer, k, _, rfl, rfl, by omega⟩
                | true =>
                  rw [hb, if_pos rfl] at h
                  rcases Value.toLength_cases c (argv args 2) with ⟨e, he⟩ | ⟨l, _, hl⟩
                  · rw [he] at h; cases h
                  · rw [hl] at h
                    replace h : (if Double.gt (Double.add (Double.fin k) (Double.fin l))
                        (Double.fin (state.buffers buffer).bytelength) = true then _ else _) =
                        Except.ok v := h
                    rw [Double.gt_add_natCast k l _ (hL buffer)] at h
                    by_cases hs : (state.buffers buffer).bytelength < k + l
                    · rw [if_pos (decide_eq_true hs)] at h; cases h
                    · rw [if_neg (by simpa using hs)] at h
                      cases h
                      exact ⟨buffer, k, l, rfl, rfl, by omega⟩
      | _ => simp [builtinDataViewConstructor, h0] at h
    | _ => simp [builtinDataViewConstructor, h0] at h

theorem construct_invariant_witness :
    ∃ buffer o len : ℕ,
      argv [Value.object (Object.arrayBuffer 7), Value.number (Double.fin ((4 : ℕ) : ℚ))] 0 =
        Value.object (Object.arrayBuffer buffer) ∧
      Value.object (Object.dataView
        { buffer := 7, byteoffset := Double.fin ((4 : ℕ) : ℚ),
          bytelength := Double.fin (((16 - 4 : ℕ) : ℕ) : ℚ) }) =
        Value.object (Object.dataView
          { buffer := buffer, byteoffset := Double.fin o, bytelength := Double.fin len }) ∧
      o + len ≤ ((bufferState 16 false).buffers buffer).bytelength :=
  construct_invariant sampleConversion (bufferState 16 false) freshView
    [Value.object (Object.arrayBuffer 7), Value.number (Double.fin ((4 : ℕ) : ℚ))] true _
    (fun _ => by show (16 : ℕ) < 2 ^ 53; norm_num)
    sample_construction

/-- C3, as stated, fails on a detached buffer: with length 0, offset 0 and length
argument 1 (so that `0 + 1 > 0`) the call throws the detached-buffer TypeError, not
a RangeError. -/
theorem construct_length_out_of_range_detached :
    (0 : ℚ) + 1 > ((0 : ℕ) : ℚ) ∧
    builtinDataViewConstructor sampleConversion (bufferState 0 true) freshView
        [Value.object (Object.arrayBuffer 0), Value.number (Double.fin 0), Value.number (Double.fin 1)]
        true =
      Except.error (Thrown.builtinError ErrorCode.TypeError "DataView" false ""
        (ErrorMessage.literal "%s: ArrayBuffer is detached buffer")) :=
  ⟨by norm_num, rfl⟩

/-- C3, amended: on a buffer that is not detached and has length `L` (below `2^53`),
a constructing call whose offset argument converts to a number `n` and whose
length argument is provided, is not `undefined` and has the ToLength value `l`,
with `n + l > L` (so `n` is `+∞` or a finite `q` with `q + l > L`), throws the
RangeError `InvalidArrayBufferOffset`. -/
theorem construct_length_out_of_range (c : ValueConversion) (state : ExecutionState)
    (thisValue : Value) (args : List Value) (buffer l : ℕ) (n : Double)
    (hbuf : argv args 0 = Value.object (Object.arrayBuffer buffer))
    (hd : (state.buffers buffer).detached = false)
    (hL : (state.buffers buffer).bytelength < 2 ^ 53)
    (h3 : 3 ≤ args.length) (hund : (argv args 2).isUndefined = false)
    (hn : (argv args 1).toNumber c = Except.ok n)
    (hl : (argv args 2).toLength c = Except.ok (Double.fin l))
    (hsum : n = Double.posInf ∨
      ∃ q : ℚ, n = Double.fin q ∧ ((state.buffers buffer).bytelength : ℚ) < q + l) :
    builtinDataViewConstructor c state thisValue args true =
      Except.error (Thrown.builtinError ErrorCode.RangeError "DataView" false ""
        ErrorMessage.InvalidArrayBufferOffset) := by
  rw [builtinDataViewConstructor_arrayBuffer c state thisValue args buffer hbuf,
    dataViewConstructorOffset_provided c args _ (by omega) hn]
  cases hb : (Double.ne n (Double.toInteger n) || Double.lt (Double.toInteger n) (Double.fin 0)) with
  | true => rfl
  | false =>
    rw [if_neg (by decide)]
    rcases Double.offset_accepted _ hb with ⟨_, h1⟩ | ⟨k, h1, h2⟩
    · rw [h1]
      exact dataViewConstructorBody_posInf c state _ buffer args hd hL
    · rw [h2]
      show dataViewConstructorBody c state _ buffer args (Double.fin k) = _
      rw [dataViewConstructorBody_natCast c state _ buffer args k hd hL]
      by_cases hk : (state.buffers buffer).bytelength < k
      · rw [if_pos hk]
      · rw [if_neg hk]
        have hb3 : (decide (3 ≤ args.length) && !(argv args 2).isUndefined) = true := by
          simp [h3, hund]
        rw [if_pos hb3, hl]
        show (if Double.gt (Double.add (Double.fin k) (Double.fin l))
          (Double.fin (state.buffers buffer).bytelength) = true then _ else _) = _
        rw [Double.gt_add_natCast k l _ hL]
        have hs : (state.buffers buffer).bytelength < k + l := by
          rcases hsum with hinf | ⟨q, hq, hlt⟩
          · rw [h1] at hinf
            cases hinf
          · have hqk : q = (k : ℚ) := by
              rw [h1] at hq
              injection hq with hq
              exact hq.symm
            rw [hqk] at hlt
            exact_mod_cast hlt
        rw [if_pos (decide_eq_true hs)]

theorem construct_length_out_of_range_witness :
    builtinDataViewConstructor sampleConversion (bufferState 16 false) freshView
        [Value.object (Object.arrayBuffer 7), Value.number (Double.fin 8),
          Value.number (Double.fin ((9 : ℕ) : ℚ))] true =
      Except.error (Thrown.builtinError ErrorCode.RangeError "DataView" false ""
        ErrorMessage.InvalidArrayBufferOffset) :=
  construct_length_out_of_range sampleConversion (bufferState 16 false) freshView
    [Value.object (Object.arrayBuffer 7), Value.number (Double.fin 8),
      Value.number (Double.fin ((9 : ℕ) : ℚ))] 7 9 (Double.fin 8)
    rfl rfl (by show (16 : ℕ) < 2 ^ 53; norm_num) (by decide) rfl rfl
    (Value.toLength_natCast sampleConversion 9 (by norm_num))
    (Or.inr ⟨8, rfl, by show ((16 : ℕ) : ℚ) < 8 + ((9 : ℕ) : ℚ); norm_num⟩)

/-- C4, as stated, fails on a detached buffer: with length 0 and offset 1 (so that
`1 > 0`) the call throws the detached-buffer TypeError, not a RangeError. -/
theorem construct_offset_out_of_range_detached :
    (1 : ℚ) > ((0 : ℕ) : ℚ) ∧
    builtinDataViewConstructor sampleConversion (bufferState 0 true) freshView
        [Value.object (Object.arrayBuffer 0), Value.number (Double.fin 1)] true =
      Except.error (Thrown.builtinError ErrorCode.TypeError "DataView" false ""
        (ErrorMessage.literal "%s: ArrayBuffer is detached buffer")) :=
  ⟨by norm_num, rfl⟩

/-- C4, amended: on a buffer that is not detached and has length `L` (below `2^53`),
a constructing call whose offset argument converts to a number greater than `L`
throws the RangeError `InvalidArrayBufferOffset`, whatever the length argument
is. -/
theorem construct_offset_out_of_range (c : ValueConversion) (state : ExecutionState)
    (thisValue : Value) (args : List Value) (buffer : ℕ) (n : Double)
    (hbuf : argv args 0 = Value.object (Object.arrayBuffer buffer))
    (hd : (state.buffers buffer).detached = false)
    (hL : (state.buffers buffer).bytelength < 2 ^ 53)
    (h2 : 2 ≤ args.length) (hn : (argv args 1).toNumber c = Except.ok n)
    (hgt : Double.gt n (Double.fin (state.buffers buffer).bytelength) = true) :
    builtinDataViewConstructor c state thisValue args true =
      Except.error (Thrown.builtinError ErrorCode.RangeError "DataView" false ""
        ErrorMessage.InvalidArrayBufferOffset) := by
  rw [builtinDataViewConstructor_arrayBuffer c state thisValue args buffer hbuf,
    dataViewConstructorOffset_provided c args _ h2 hn]
  cases hb : (Double.ne n (Double.toInteger n) || Double.lt (Double.toInteger n) (Double.fin 0)) with
  | true => rfl
  | false =>
    rw [if_neg (by decide)]
    rcases Double.offset_accepted _ hb with ⟨_, h1⟩ | ⟨k, h1, h3⟩
    · rw [h1]
      exact dataViewConstructorBody_posInf c state _ buffer args hd hL
    · rw [h3]
      show dataViewConstructorBody c state _ buffer args (Double.fin k) = _
      rw [dataViewConstructorBody_natCast c state _ buffer args k hd hL]
      have hk : (state.buffers buffer).bytelength < k := by
        rw [h1] at hgt
        have : ((state.buffers buffer).bytelength : ℚ) < (k : ℚ) := of_decide_eq_true hgt
        exact_mod_cast this
      rw [if_pos hk]

theorem construct_offset_out_of_range_witness :
    builtinDataViewConstructor sampleConversion (bufferState 16 false) freshView
        [Value.object (Object.arrayBuffer 7), Value.number (Double.fin 17)] true =
      Except.error (Thrown.builtinError ErrorCode.RangeError "DataView" false ""
        ErrorMessage.InvalidArrayBufferOffset) :=
  construct_offset_out_of_range sampleConversion (bufferState 16 false) freshView
    [Value.object (Object.arrayBuffer 7), Value.number (Double.fin 17)] 7 (Double.fin 17)
    rfl rfl (by show (16 : ℕ) < 2 ^ 53; norm_num) (by decide) rfl
    (by show decide (((16 : ℕ) : ℚ) < 17) = true; norm_num)

/-- C5: in a constructing call on an array buffer whose offset argument is provided
and converts to the number `n`, the call throws the RangeError
`InvalidArrayBufferOffset` when `n` differs from its ToInteger value or that value
is negative, which is so when `n` is NaN, is not an integer, or is negative;
and when `n` is a natural number the offset check passes with that offset, and
the call does what the rest of the constructor does with it. -/
theorem construct_offset_check (c : ValueConversion) (state : ExecutionState) (thisValue : Value)
    (args : List Value) (buffer : ℕ) (n : Double)
    (hbuf : argv args 0 = Value.object (Object.arrayBuffer buffer))
    (h2 : 2 ≤ args.length) (hn : (argv args 1).toNumber c = Except.ok n) :
    ((Double.ne n (Double.toInteger n) = true ∨ Double.lt (Double.toInteger n) (Double.fin 0) = true ∨
        n = Double.nan ∨ (∃ q : ℚ, n = Double.fin q ∧ ((∀ z : ℤ, q ≠ (z : ℚ)) ∨ q < 0))) →
      builtinDataViewConstructor c state thisValue args true =
        Except.error (Thrown.builtinError ErrorCode.RangeError "DataView" false ""
          ErrorMessage.InvalidArrayBufferOffset)) ∧
    (∀ k : ℕ, n = Double.fin k →
      dataViewConstructorOffset c args = Except.ok (Double.fin k) ∧
      builtinDataViewConstructor c state thisValue args true =
        dataViewConstructorBody c state thisValue.asArrayBufferView buffer args (Double.fin k)) := by
  constructor
  · intro h
    have hb : (Double.ne n (Double.toInteger n) || Double.lt (Double.toInteger n) (Double.fin 0)) = true := by
      rcases h with h | h | h | ⟨q, hq, h⟩
      · rw [h]; rfl
      · rw [h]; exact Bool.or_true _
      · subst h; rfl
      · subst hq
        by_cases hneg : q < 0
        · have h1 : ((⌈q⌉ : ℤ) : ℚ) < 0 ∨ ¬ (q = ((⌈q⌉ : ℤ) : ℚ)) := by
            by_cases he : q = ((⌈q⌉ : ℤ) : ℚ)
            · left
              rw [← he]
              exact hneg
            · right
              exact he
          rcases h1 with h1 | h1
          · simp [Double.toInteger, hneg, Double.lt, h1]
          · simp [Double.toInteger, hneg, Double.ne, Double.eq, h1]
        · rcases h with h | h
          · have := h ⌊q⌋
            simp [Double.toInteger, hneg, Double.ne, Double.eq, this]
          · exact absurd h hneg
    rw [builtinDataViewConstructor_arrayBuffer c state thisValue args buffer hbuf,
      dataViewConstructorOffset_provided c args n h2 hn, hb]
    rfl
  · intro k hk
    subst hk
    have ho := dataViewConstructorOffset_natCast c args k h2 hn
    refine ⟨ho, ?_⟩
    rw [builtinDataViewConstructor_arrayBuffer c state thisValue args buffer hbuf, ho]
    rfl

theorem construct_offset_check_witness :
    builtinDataViewConstructor sampleConversion (bufferState 16 false) freshView
        [Value.object (Object.arrayBuffer 7), Value.number (Double.fin (3 / 2))] true =
      Except.error (Thrown.builtinError ErrorCode.RangeError "DataView" false ""
        ErrorMessage.InvalidArrayBufferOffset) :=
  (construct_offset_check sampleConversion (bufferState 16 false) freshView
    [Value.object (Object.arrayBuffer 7), Value.number (Double.fin (3 / 2))] 7 (Double.fin (3 / 2))
    rfl (by decide) rfl).1
    (Or.inr (Or.inr (Or.inr ⟨3 / 2, rfl, Or.inl (fun z hz => by
      have h1 : (3 : ℚ) = 2 * (z : ℚ) := by linarith
      have h2 : (3 : ℤ) = 2 * z := by exact_mod_cast h1
      omega)⟩)))

/-- C6: a constructing call on an array buffer that is already detached, with the
offset argument omitted or converting to a natural number, throws the
detached-buffer TypeError, whatever the buffer length, the offset and the other
arguments are. -/
theorem construct_detached (c : ValueConversion) (state : ExecutionState) (thisValue : Value)
    (args : List Value) (buffer : ℕ)
    (hbuf : argv args 0 = Value.object (Object.arrayBuffer buffer))
    (hd : (state.buffers buffer).detached = true)
    (hoff : args.length < 2 ∨ ∃ k : ℕ, (argv args 1).toNumber c = Except.ok (Double.fin k)) :
    builtinDataViewConstructor c state thisValue args true =
      Except.error (Thrown.builtinError ErrorCode.TypeError "DataView" false ""
        (ErrorMessage.literal "%s: ArrayBuffer is detached buffer")) := by
  rw [builtinDataViewConstructor_arrayBuffer c state thisValue args buffer hbuf]
  by_cases h2 : 2 ≤ args.length
  · rcases hoff with h | ⟨k, hk⟩
    · omega
    · rw [dataViewConstructorOffset_natCast c args k h2 hk]
      exact dataViewConstructorBody_detached c state _ buffer args _ hd
  · rw [dataViewConstructorOffset_omitted c args (by omega)]
    exact dataViewConstructorBody_detached c state _ buffer args _ hd

theorem construct_detached_witness :
    builtinDataViewConstructor sampleConversion (bufferState 16 true) freshView
        [Value.object (Object.arrayBuffer 7), Value.number (Double.fin ((20 : ℕ) : ℚ)),
          Value.number (Double.fin 40)] true =
      Except.error (Thrown.builtinError ErrorCode.TypeError "DataView" false ""
        (ErrorMessage.literal "%s: ArrayBuffer is detached buffer")) :=
  construct_detached sampleConversion (bufferState 16 true) freshView
    [Value.object (Object.arrayBuffer 7), Value.number (Double.fin ((20 : ℕ) : ℚ)),
      Value.number (Double.fin 40)] 7 rfl rfl (Or.inr ⟨20, rfl⟩)

/-- C7: for each of the eight element types, a getter called with fewer than two
arguments does what it does with `littleEndian = false`, a setter called with
fewer than three arguments does what it does with `littleEndian = false`, and on a
view a setter hands its first argument on as the request offset, its second as
the value to store and its third, when present, as `littleEndian`. -/
theorem littleEndian_default (getViewValue : GetViewValue) (setViewValue : SetViewValue)
    (Name : TypedArrayType) (state : ExecutionState) (thisValue : Value) (args : List Value) :
    (args.length < 2 →
      builtinDataViewGet getViewValue Name state thisValue args =
        builtinDataViewGet getViewValue Name state thisValue
          [argv args 0, Value.boolean false]) ∧
    (args.length < 3 →
      builtinDataViewSet setViewValue Name state thisValue args =
        builtinDataViewSet setViewValue Name state thisValue
          [argv args 0, argv args 1, Value.boolean false]) ∧
    (∀ view : DataViewObject,
      builtinDataViewGet getViewValue Name state (Value.object (Object.dataView view)) args =
        getViewValue state view (argv args 0)
          (if args.length < 2 then Value.boolean false else argv args 1) Name) ∧
    (∀ view : DataViewObject,
      builtinDataViewSet setViewValue Name state (Value.object (Object.dataView view)) args =
        setViewValue state view (argv args 0)
          (if args.length < 3 then Value.boolean false else argv args 2) Name (argv args 1)) := by
  refine ⟨?_, ?_, ?_, ?_⟩
  · intro h
    unfold builtinDataViewGet
    cases resolveThisBindingToObject thisValue "DataView" Name.getName with
    | error e => rfl
    | ok thisObject =>
      cases thisObject <;> first
        | rfl
        | (show (if args.length < 2 then _ else _) = _
           rw [if_pos h]
           rfl)
  · intro h
    unfold builtinDataViewSet
    cases resolveThisBindingToObject thisValue "DataView" Name.getName with
    | error e => rfl
    | ok thisObject =>
      cases thisObject <;> first
        | rfl
        | (show (if args.length < 3 then _ else _) = _
           rw [if_pos h]
           rfl)
  · intro view
    show (if args.length < 2 then _ else _) = _
    split_ifs <;> rfl
  · intro view
    show (if args.length < 3 then _ else _) = _
    split_ifs <;> rfl

/-- C8 fails on the code: a setter called on an `undefined` or `null` receiver throws
a TypeError tagged with the name of the getter of its element type (line 105
hands `get##Name` to `RESOLVE_THIS_BINDING_TO_OBJECT`), which is not the name of the
setter that was called. -/
theorem setter_receiver_tag (setViewValue : SetViewValue) (Name : TypedArrayType)
    (state : ExecutionState) (args : List Value) :
    builtinDataViewSet setViewValue Name state Value.undefined args =
      Except.error (Thrown.builtinError ErrorCode.TypeError "DataView" true Name.getName
        ErrorMessage.ThisUndefinedOrNull) ∧
    builtinDataViewSet setViewValue Name state Value.null args =
      Except.error (Thrown.builtinError ErrorCode.TypeError "DataView" true Name.getName
        ErrorMessage.ThisUndefinedOrNull) ∧
    Name.getName ≠ Name.setName := by
  refine ⟨rfl, rfl, ?_⟩
  cases Name <;> decide

/-- C9: on the view a construction returned, the accessors `buffer`, `byteOffset`
and `byteLength` return the buffer, offset and length stored by the
construction, in every state of the heap (so before and after the buffer is
detached) and for every argument list; they do not throw. -/
theorem accessors_keep_construction_values (c : ValueConversion) (state : ExecutionState)
    (thisValue : Value) (args : List Value) (isNewExpression : Bool) (v : Value)
    (h : builtinDataViewConstructor c state thisValue args isNewExpression = Except.ok v) :
    ∃ (buffer : ℕ) (byteOffset byteLength : Double),
      argv args 0 = Value.object (Object.arrayBuffer buffer) ∧
      v = Value.object (Object.dataView
        { buffer := buffer, byteoffset := byteOffset, bytelength := byteLength }) ∧
      ∀ (later : ExecutionState) (args1 : List Value),
        builtinDataViewBufferGetter later v args1 =
          Except.ok (Value.object (Object.arrayBuffer buffer)) ∧
        builtinDataViewByteOffsetGetter later v args1 = Except.ok (Value.number byteOffset) ∧
        builtinDataViewByteLengthGetter later v args1 = Except.ok (Value.number byteLength) := by
  cases isNewExpression with
  | false => cases h
  | true =>
    cases h0 : argv args 0 with
    | object ob =>
      cases ob with
      | arrayBuffer buffer =>
        rw [builtinDataViewConstructor_arrayBuffer c state thisValue args buffer h0] at h
        cases hoff : dataViewConstructorOffset c args with
        | error e => rw [hoff] at h; cases h
        | ok byteOffset =>
          rw [hoff] at h
          obtain ⟨byteLength, hv⟩ := dataViewConstructorBody_stores c state _ buffer args byteOffset v h
          subst hv
          exact ⟨buffer, byteOffset, byteLength, rfl, rfl, fun _ _ => ⟨rfl, rfl, rfl⟩⟩
      | _ => simp [builtinDataViewConstructor, h0] at h
    | _ => simp [builtinDataViewConstructor, h0] at h

theorem accessors_keep_construction_values_witness :
    ∃ (buffer : ℕ) (byteOffset byteLength : Double),
      argv [Value.object (Object.arrayBuffer 7), Value.number (Double.fin ((4 : ℕ) : ℚ))] 0 =
        Value.object (Object.arrayBuffer buffer) ∧
      Value.object (Object.dataView
        { buffer := 7, byteoffset := Double.fin ((4 : ℕ) : ℚ),
          bytelength := Double.fin (((16 - 4 : ℕ) : ℕ) : ℚ) }) =
        Value.object (Object.dataView
          { buffer := buffer, byteoffset := byteOffset, bytelength := byteLength }) ∧
      ∀ (later : ExecutionState) (args1 : List Value),
        builtinDataViewBufferGetter later (Value.object (Object.dataView
            { buffer := 7, byteoffset := Double.fin ((4 : ℕ) : ℚ),
              bytelength := Double.fin (((16 - 4 : ℕ) : ℕ) : ℚ) })) args1 =
          Except.ok (Value.object (Object.arrayBuffer buffer)) ∧
        builtinDataViewByteOffsetGetter later (Value.object (Object.dataView
            { buffer := 7, byteoffset := Double.fin ((4 : ℕ) : ℚ),
              bytelength := Double.fin (((16 - 4 : ℕ) : ℕ) : ℚ) })) args1 =
          Except.ok (Value.number byteOffset) ∧
        builtinDataViewByteLengthGetter later (Value.object (Object.dataView
            { buffer := 7, byteoffset := Double.fin ((4 : ℕ) : ℚ),
              bytelength := Double.fin (((16 - 4 : ℕ) : ℕ) : ℚ) })) args1 =
          Except.ok (Value.number byteLength) :=
  accessors_keep_construction_values sampleConversion (bufferState 16 false) freshView
    [Value.object (Object.arrayBuffer 7), Value.number (Double.fin ((4 : ℕ) : ℚ))] true _
    sample_construction

/-- C10: called without `new`, `builtinDataViewConstructor` throws the TypeError
`NotExistNewInDataViewConstructor` for every receiver, every argument list, every
heap and every behaviour of the value conversions; it returns no view. -/
theorem construct_requires_new (c : ValueConversion) (state : ExecutionState) (thisValue : Value)
    (args : List Value) :
    builtinDataViewConstructor c state thisValue args false =
      Except.error (Thrown.builtinError ErrorCode.TypeError "DataView" false ""
        ErrorMessage.NotExistNewInDataViewConstructor) :=
  rfl

/-! ## Further lemmas on the constructor -/

/-- A finished run of the constructor body with a length argument that is provided
and not `undefined` stored the ToLength value of that argument. -/
theorem dataViewConstructorBody_length (c : ValueConversion) (state : ExecutionState)
    (obj : DataViewObject) (buffer : ℕ) (args : List Value) (byteOffset : Double) (v : Value)
    (h3 : 3 ≤ args.length) (hund : (argv args 2).isUndefined = false)
    (h : dataViewConstructorBody c state obj buffer args byteOffset = Except.ok v) :
    ∃ byteLength : Double, (argv args 2).toLength c = Except.ok byteLength ∧
      v = Value.object (Object.dataView
        { buffer := buffer, byteoffset := byteOffset, bytelength := byteLength }) := by
  unfold dataViewConstructorBody at h
  cases hd : (state.buffers buffer).isDetachedBuffer with
  | true => rw [hd, if_pos rfl] at h; cases h
  | false =>
    rw [hd, if_neg (by decide)] at h
    cases hg : Double.gt byteOffset (Double.ofNat (state.buffers buffer).bytelength) with
    | true => simp only [hg, if_true] at h; cases h
    | false =>
      have hb : (decide (3 ≤ args.length) && !(argv args 2).isUndefined) = true := by
        simp [h3, hund]
      simp only [hg, Bool.false_eq_true, if_false, hb, if_true] at h
      cases hl : (argv args 2).toLength c with
      | error e => rw [hl] at h; cases h
      | ok byteLength =>
        rw [hl] at h
        cases hs : Double.gt (Double.add byteOffset byteLength)
            (Double.ofNat (state.buffers buffer).bytelength) with
        | true =>
          replace h : ((if Double.gt (Double.add byteOffset byteLength)
            (Double.ofNat (state.buffers buffer).bytelength) = true then
              (throw (Thrown.builtinError ErrorCode.RangeError "DataView" false ""
                ErrorMessage.InvalidArrayBufferOffset) : Except Thrown Double)
            else pure byteLength) >>= fun byteLength =>
              (pure (Value.object (Object.dataView (obj.setBuffer buffer byteOffset byteLength))) :
                Except Thrown Value)) = Except.ok v := h
          rw [hs, if_pos rfl] at h
          cases h
        | false =>
          replace h : ((if Double.gt (Double.add byteOffset byteLength)
            (Double.ofNat (state.buffers buffer).bytelength) = true then
              (throw (Thrown.builtinError ErrorCode.RangeError "DataView" false ""
                ErrorMessage.InvalidArrayBufferOffset) : Except Thrown Double)
            else pure byteLength) >>= fun byteLength =>
              (pure (Value.object (Object.dataView (obj.setBuffer buffer byteOffset byteLength))) :
                Except Thrown Value)) = Except.ok v := h
          rw [hs, if_neg (by decide)] at h
          cases h
          exact ⟨byteLength, rfl, rfl⟩

/-- The ToLength value of an argument whose number is NaN, `-∞` or negative is 0. -/
theorem Value.toLength_of_negative (c : ValueConversion) (v : Value) (n : Double)
    (hn : v.toNumber c = Except.ok n)
    (hneg : n = Double.nan ∨ n = Double.negInf ∨ ∃ q : ℚ, q < 0 ∧ n = Double.fin q) :
    v.toLength c = Except.ok (Double.fin 0) := by
  unfold Value.toLength
  rw [hn]
  show (if Double.le (Double.toInteger n) (Double.fin 0) then (pure (Double.fin 0) : Except Thrown Double)
      else pure (Double.min (Double.toInteger n) (Double.fin (2 ^ 53 - 1)))) = _
  have hle : Double.le (Double.toInteger n) (Double.fin 0) = true := by
    rcases hneg with h | h | ⟨q, hq, h⟩
    · subst h; rfl
    · subst h; rfl
    · subst h
      have h1 : ((⌈q⌉ : ℤ) : ℚ) ≤ 0 := by
        have : ⌈q⌉ ≤ 0 := Int.ceil_le.mpr (by simpa using le_of_lt hq)
        exact_mod_cast this
      simp only [Double.toInteger, hq, if_true, Double.le_fin, h1, decide_True]
  rw [if_pos hle]
  rfl

theorem offsetRejected_eq (n : Double) :
    offsetRejected n =
      (Double.ne n (Double.toInteger n) || Double.lt (Double.toInteger n) (Double.fin 0)) := by
  cases n with
  | nan => rfl
  | posInf => rfl
  | negInf => rfl
  | fin q =>
    have hl : offsetRejected (Double.fin q) = !decide (0 ≤ q ∧ ((⌊q⌋ : ℤ) : ℚ) = q) := by
      simp [offsetRejected, Double.isNaturalNumber, Double.eq]
    rw [hl, Bool.eq_iff_iff]
    by_cases hq : q < 0
    · have h1 : ¬ (0 ≤ q ∧ ((⌊q⌋ : ℤ) : ℚ) = q) := fun h => absurd hq (not_lt.mpr h.1)
      have h2 : ((⌈q⌉ : ℤ) : ℚ) < 0 ∨ ¬ (q = ((⌈q⌉ : ℤ) : ℚ)) := by
        by_cases he : q = ((⌈q⌉ : ℤ) : ℚ)
        · left; rw [← he]; exact hq
        · right; exact he
      simp only [Double.toInteger, hq, if_true, Double.ne, Double.eq, Double.lt, h1, decide_False,
        Bool.not_false, Bool.or_eq_true, Bool.not_eq_true', decide_eq_false_iff_not,
        decide_eq_true_eq, true_iff]
      tauto
    · have h0 : 0 ≤ q := not_lt.mp hq
      have hfl : ¬ (((⌊q⌋ : ℤ) : ℚ) < 0) := by
        have : (0 : ℤ) ≤ ⌊q⌋ := Int.floor_nonneg.mpr h0
        have : (0 : ℚ) ≤ ((⌊q⌋ : ℤ) : ℚ) := by exact_mod_cast this
        exact not_lt.mpr this
      simp only [Double.toInteger, hq, if_false, Double.ne, Double.eq, Double.lt, h0, true_and,
        hfl, decide_False, Bool.or_false, Bool.not_eq_true', decide_eq_false_iff_not]
      constructor
      · intro h he; exact h he.symm
      · intro h he; exact h he.symm

/-- The body of the constructor agrees with steps (4) to (6) of the decision list
for an offset that is a natural number. -/
theorem dataViewConstructorBody_decision (c : ValueConversion) (state : ExecutionState)
    (obj : DataViewObject) (buffer : ℕ) (args : List Value) (k l : ℕ)
    (hL : (state.buffers buffer).bytelength < 2 ^ 53)
    (hlen : 3 ≤ args.length → (argv args 2).isUndefined = false →
      (argv args 2).toLength c = Except.ok (Double.fin l)) :
    dataViewConstructorBody c state obj buffer args (Double.fin k) =
      if (state.buffers buffer).detached = true then
        Except.error (Thrown.builtinError ErrorCode.TypeError "DataView" false ""
          (ErrorMessage.literal "%s: ArrayBuffer is detached buffer"))
      else if (Double.fin (k : ℚ)).exceeds 0 (state.buffers buffer).bytelength = true then
        Except.error (Thrown.builtinError ErrorCode.RangeError "DataView" false ""
          ErrorMessage.InvalidArrayBufferOffset)
      else if ((providedLength args l).map
          fun (l : ℕ) => (Double.fin (k : ℚ)).exceeds l (state.buffers buffer).bytelength).getD false
            = true then
        Except.error (Thrown.builtinError ErrorCode.RangeError "DataView" false ""
          ErrorMessage.InvalidArrayBufferOffset)
      else
        Except.ok (Value.object (Object.dataView
          { obj with
            buffer := buffer
            byteoffset := Double.fin (k : ℚ)
            bytelength :=
    ((providedLength args l).map
                fun (l : ℕ) => Double.fin (l : ℚ)).getD
                ((Double.fin (k : ℚ)).remaining (state.buffers buffer).bytelength) })) := by
  cases hd : (state.buffers buffer).detached with
  | true =>
    rw [dataViewConstructorBody_detached c state obj buffer args _ hd]
    rfl
  | false =>
    rw [dataViewConstructorBody_natCast c state obj buffer args k hd hL]
    have hex : ∀ m : ℕ, (Double.fin (k : ℚ)).exceeds m (state.buffers buffer).bytelength =
        decide ((state.buffers buffer).bytelength < k + m) := by
      intro m
      show decide (((state.buffers buffer).bytelength : ℚ) < (k : ℚ) + (m : ℚ)) = _
      exact decide_eq_decide.mpr (by exact_mod_cast Iff.rfl)
    simp only [Bool.false_eq_true, if_false, hex, Nat.add_zero, decide_eq_true_eq]
    by_cases hk : (state.buffers buffer).bytelength < k
    · rw [if_pos hk, if_pos hk]
    · rw [if_neg hk, if_neg hk]
      by_cases h3 : 3 ≤ args.length ∧ (argv args 2).isUndefined = false
      · have hb3 : (decide (3 ≤ args.length) && !(argv args 2).isUndefined) = true := by
          simp [h3.1, h3.2]
        rw [if_pos hb3, hlen h3.1 h3.2, providedLength, if_pos h3]
        show (if Double.gt (Double.add (Double.fin k) (Double.fin l))
          (Double.fin (state.buffers buffer).bytelength) = true then _ else _) = _
        rw [Double.gt_add_natCast k l _ hL]
        simp only [Option.map_some', Option.getD_some, decide_eq_true_eq]
      · have hb3 : ¬ ((decide (3 ≤ args.length) && !(argv args 2).isUndefined) = true) := by
          intro h
          apply h3
          simpa using h
        rw [if_neg hb3, providedLength, if_neg h3]
        have hrem : (Double.fin (k : ℚ)).remaining (state.buffers buffer).bytelength =
            Double.fin (((state.buffers buffer).bytelength - k : ℕ) : ℚ) := by
          show Double.fin (((state.buffers buffer).bytelength : ℚ) - (k : ℚ)) = _
          rw [Nat.cast_sub (not_lt.mp hk)]
        simp only [Option.map_none', Option.getD_none, Bool.false_eq_true, if_false, hrem]

/-! ## The claims on the constructor, continued -/

/-- C11: a constructing call whose first argument is not an array buffer object
throws the TypeError `ThisNotArrayBufferObject`, whatever the other arguments, the
heap and the value conversions are (no argument is converted). -/
theorem construct_requires_array_buffer (c : ValueConversion) (state : ExecutionState)
    (thisValue : Value) (args : List Value)
    (h : ∀ buffer : ℕ, argv args 0 ≠ Value.object (Object.arrayBuffer buffer)) :
    builtinDataViewConstructor c state thisValue args true =
      Except.error (Thrown.builtinError ErrorCode.TypeError "DataView" false ""
        ErrorMessage.ThisNotArrayBufferObject) := by
  unfold builtinDataViewConstructor
  cases h0 : argv args 0 with
  | object ob =>
    cases ob with
    | arrayBuffer buffer => exact absurd h0 (h buffer)
    | _ => rfl
  | _ => rfl

theorem construct_requires_array_buffer_witness :
    builtinDataViewConstructor sampleConversion (bufferState 16 false) freshView
        [Value.object (Object.ordinary 3), Value.string "x", Value.symbol 1] true =
      Except.error (Thrown.builtinError ErrorCode.TypeError "DataView" false ""
        ErrorMessage.ThisNotArrayBufferObject) :=
  construct_requires_array_buffer sampleConversion (bufferState 16 false) freshView
    [Value.object (Object.ordinary 3), Value.string "x", Value.symbol 1]
    (fun buffer hb => by cases hb)

/-- C14: on a buffer that is not detached and has length `L` (below `2^53`), with an
offset `o ≤ L`, a length argument that is provided, is not `undefined` and
converts to NaN or to a negative number has the ToLength value 0, and the call
returns a view with `byteOffset = o` and `byteLength = 0`; and whenever a call with
a provided length returns, the stored `byteLength` is the ToLength value of that
argument, a natural number of at most `2^53 - 1`. -/
theorem construct_length_clamped (c : ValueConversion) (state : ExecutionState)
    (thisValue : Value) (args : List Value) (buffer : ℕ)
    (hbuf : argv args 0 = Value.object (Object.arrayBuffer buffer))
    (h3 : 3 ≤ args.length) (hund : (argv args 2).isUndefined = false) :
    (∀ (o : ℕ) (n : Double),
      (state.buffers buffer).detached = false → (state.buffers buffer).bytelength < 2 ^ 53 →
      o ≤ (state.buffers buffer).bytelength →
      (argv args 1).toNumber c = Except.ok (Double.fin o) →
      (argv args 2).toNumber c = Except.ok n →
      (n = Double.nan ∨ n = Double.negInf ∨ ∃ q : ℚ, q < 0 ∧ n = Double.fin q) →
      (argv args 2).toLength c = Except.ok (Double.fin 0) ∧
      builtinDataViewConstructor c state thisValue args true =
        Except.ok (Value.object (Object.dataView
          { buffer := buffer, byteoffset := Double.fin o, bytelength := Double.fin 0 }))) ∧
    (∀ v : Value, builtinDataViewConstructor c state thisValue args true = Except.ok v →
      ∃ (byteOffset : Double) (l : ℕ), l ≤ 2 ^ 53 - 1 ∧
        (argv args 2).toLength c = Except.ok (Double.fin l) ∧
        v = Value.object (Object.dataView
          { buffer := buffer, byteoffset := byteOffset, bytelength := Double.fin l })) := by
  constructor
  · intro o n hd hL ho hoff hn hneg
    have hl := Value.toLength_of_negative c (argv args 2) n hn hneg
    refine ⟨hl, ?_⟩
    rw [builtinDataViewConstructor_arrayBuffer c state thisValue args buffer hbuf,
      dataViewConstructorOffset_natCast c args o (by omega) hoff]
    show dataViewConstructorBody c state _ buffer args (Double.fin o) = _
    rw [dataViewConstructorBody_natCast c state _ buffer args o hd hL, if_neg (by omega)]
    have hb3 : (decide (3 ≤ args.length) && !(argv args 2).isUndefined) = true := by
      simp [h3, hund]
    rw [if_pos hb3, hl]
    have h0 : (Double.fin 0) = Double.fin ((0 : ℕ) : ℚ) := by simp
    show (if Double.gt (Double.add (Double.fin o) (Double.fin 0))
      (Double.fin (state.buffers buffer).bytelength) = true then _ else _) = _
    rw [h0, Double.gt_add_natCast o 0 _ hL, if_neg (by simpa using ho)]
  · intro v h
    rw [builtinDataViewConstructor_arrayBuffer c state thisValue args buffer hbuf] at h
    cases hoff : dataViewConstructorOffset c args with
    | error e => rw [hoff] at h; cases h
    | ok byteOffset =>
      rw [hoff] at h
      obtain ⟨byteLength, hl, hv⟩ :=
        dataViewConstructorBody_length c state _ buffer args byteOffset v h3 hund h
      rcases Value.toLength_cases c (argv args 2) with ⟨e, he⟩ | ⟨l, hl1, hl2⟩
      · rw [he] at hl; cases hl
      · rw [hl2] at hl
        cases hl
        exact ⟨byteOffset, l, hl1, hl2, hv⟩

theorem construct_length_clamped_witness :
    builtinDataViewConstructor sampleConversion (bufferState 16 false) freshView
        [Value.object (Object.arrayBuffer 7), Value.number (Double.fin ((4 : ℕ) : ℚ)),
          Value.number (Double.fin (-3))] true =
      Except.ok (Value.object (Object.dataView
        { buffer := 7, byteoffset := Double.fin ((4 : ℕ) : ℚ), bytelength := Double.fin 0 })) :=
  ((construct_length_clamped sampleConversion (bufferState 16 false) freshView
    [Value.object (Object.arrayBuffer 7), Value.number (Double.fin ((4 : ℕ) : ℚ)),
      Value.number (Double.fin (-3))] 7 rfl (by decide) rfl).1 4 (Double.fin (-3))
    rfl (by show (16 : ℕ) < 2 ^ 53; norm_num) (by show 4 ≤ 16; norm_num) rfl rfl
    (Or.inr (Or.inr ⟨-3, by norm_num, rfl⟩))).2

/-- C16: on a buffer that is not detached (of length below `2^53`) a constructing
call with the offset argument omitted returns a view with `byteOffset = 0`, while a
constructing call whose offset argument is `undefined` throws the RangeError
`InvalidArrayBufferOffset`: `undefined` converts to NaN, which differs from its
ToInteger value 0. -/
theorem construct_offset_omitted_or_undefined (c : ValueConversion) (state : ExecutionState)
    (thisValue : Value) (args : List Value) (buffer : ℕ)
    (hbuf : argv args 0 = Value.object (Object.arrayBuffer buffer))
    (hd : (state.buffers buffer).detached = false)
    (hL : (state.buffers buffer).bytelength < 2 ^ 53) :
    (args.length < 2 →
      builtinDataViewConstructor c state thisValue args true =
        Except.ok (Value.object (Object.dataView
          { buffer := buffer, byteoffset := Double.fin 0,
            bytelength := Double.fin ((state.buffers buffer).bytelength : ℚ) }))) ∧
    (2 ≤ args.length → argv args 1 = Value.undefined →
      (argv args 1).toNumber c = Except.ok Double.nan ∧
      Double.ne Double.nan (Double.toInteger Double.nan) = true ∧
      builtinDataViewConstructor c state thisValue args true =
        Except.error (Thrown.builtinError ErrorCode.RangeError "DataView" false ""
          ErrorMessage.InvalidArrayBufferOffset)) := by
  constructor
  · intro h2
    rw [builtinDataViewConstructor_arrayBuffer c state thisValue args buffer hbuf,
      dataViewConstructorOffset_omitted c args h2]
    have h := dataViewConstructorBody_no_length c state thisValue.asArrayBufferView buffer args
      (state.buffers buffer).bytelength 0 hd rfl hL (Nat.zero_le _) (Or.inl (by omega))
    simpa using h
  · intro h2 hu
    have hn : (argv args 1).toNumber c = Except.ok Double.nan := by rw [hu]; rfl
    refine ⟨hn, rfl, ?_⟩
    rw [builtinDataViewConstructor_arrayBuffer c state thisValue args buffer hbuf,
      dataViewConstructorOffset_provided c args Double.nan h2 hn]
    rfl

theorem construct_offset_omitted_or_undefined_witness :
    builtinDataViewConstructor sampleConversion (bufferState 16 false) freshView
        [Value.object (Object.arrayBuffer 7), Value.undefined, Value.number (Double.fin 4)] true =
      Except.error (Thrown.builtinError ErrorCode.RangeError "DataView" false ""
        ErrorMessage.InvalidArrayBufferOffset) :=
  ((construct_offset_omitted_or_undefined sampleConversion (bufferState 16 false) freshView
    [Value.object (Object.arrayBuffer 7), Value.undefined, Value.number (Double.fin 4)] 7
    rfl rfl (by show (16 : ℕ) < 2 ^ 53; norm_num)).2 (by decide) rfl).2.2

/-- C15, as worded, fails for the offset `+∞` on a detached buffer: the code throws
the detached-buffer TypeError, while the decision list that rejects every
non-integer offset at step (3) gives the RangeError. -/
theorem constructor_decision_list_as_worded_fails :
    builtinDataViewConstructor sampleConversion (bufferState 0 true) freshView
        [Value.object (Object.arrayBuffer 0), Value.number Double.posInf] true =
      Except.error (Thrown.builtinError ErrorCode.TypeError "DataView" false ""
        (ErrorMessage.literal "%s: ArrayBuffer is detached buffer")) ∧
    constructorDecisionList offsetRejectedAsWorded (bufferState 0 true) freshView.asArrayBufferView
        true (Value.object (Object.arrayBuffer 0)) (some Double.posInf) none =
      Except.error (Thrown.builtinError ErrorCode.RangeError "DataView" false ""
        ErrorMessage.InvalidArrayBufferOffset) :=
  ⟨rfl, rfl⟩

/-- C15, amended: for arguments whose conversions return numbers and a heap of
buffers with lengths below `2^53`, the outcome of `builtinDataViewConstructor` is
that of the decision list (1) not a constructing call, (2) first argument not an
array buffer, (3) offset provided and NaN, fractional or negative, (4) buffer
detached, (5) offset above the buffer length, (6) length provided, not `undefined`,
and offset plus its ToLength value above the buffer length, else success; the
offset `+∞` is not rejected at (3) but at (5).  In particular, on a detached
buffer a rejected offset gives the RangeError and any other offset gives the
detached-buffer TypeError. -/
theorem constructor_decision_list (c : ValueConversion) (state : ExecutionState)
    (thisValue : Value) (args : List Value) (isNewExpression : Bool) (n : Double) (l : ℕ)
    (hL : ∀ r, (state.buffers r).bytelength < 2 ^ 53)
    (hoff : 2 ≤ args.length → (argv args 1).toNumber c = Except.ok n)
    (hlen : 3 ≤ args.length → (argv args 2).isUndefined = false →
      (argv args 2).toLength c = Except.ok (Double.fin l)) :
    builtinDataViewConstructor c state thisValue args isNewExpression =
      constructorDecisionList offsetRejected state thisValue.asArrayBufferView isNewExpression
        (argv args 0) (providedOffset args n) (providedLength args l) ∧
    (∀ buffer : ℕ, argv args 0 = Value.object (Object.arrayBuffer buffer) →
      (state.buffers buffer).detached = true → isNewExpression = true →
      (2 ≤ args.length → offsetRejected n = true →
        builtinDataViewConstructor c state thisValue args isNewExpression =
          Except.error (Thrown.builtinError ErrorCode.RangeError "DataView" false ""
            ErrorMessage.InvalidArrayBufferOffset)) ∧
      ((args.length < 2 ∨ offsetRejected n = false) →
        builtinDataViewConstructor c state thisValue args isNewExpression =
          Except.error (Thrown.builtinError ErrorCode.TypeError "DataView" false ""
            (ErrorMessage.literal "%s: ArrayBuffer is detached buffer")))) := by
  have main : builtinDataViewConstructor c state thisValue args isNewExpression =
      constructorDecisionList offsetRejected state thisValue.asArrayBufferView isNewExpression
        (argv args 0) (providedOffset args n) (providedLength args l) := by
    cases isNewExpression with
    | false => rfl
    | true =>
      cases h0 : argv args 0 with
      | object ob =>
        cases ob with
        | arrayBuffer buffer =>
          rw [builtinDataViewConstructor_arrayBuffer c state thisValue args buffer h0]
          unfold constructorDecisionList
          simp only [Bool.true_eq_false, if_false]
          by_cases h2 : 2 ≤ args.length
          · rw [dataViewConstructorOffset_provided c args n h2 (hoff h2), providedOffset,
              if_pos h2, ← offsetRejected_eq]
            simp only [Option.map_some', Option.getD_some]
            cases hr : offsetRejected n with
            | true => rfl
            | false =>
              rw [if_neg (by decide), if_neg (by decide)]
              rw [offsetRejected_eq] at hr
              rcases Double.offset_accepted n hr with ⟨h1, h3⟩ | ⟨k, h1, h3⟩
              · rw [h3, h1]
                show dataViewConstructorBody c state _ buffer args Double.posInf = _
                cases hd : (state.buffers buffer).detached with
                | true =>
                  rw [dataViewConstructorBody_detached c state _ buffer args _ hd]
                  rfl
                | false =>
                  rw [dataViewConstructorBody_posInf c state _ buffer args hd (hL buffer)]
                  rfl
              · rw [h3, h1]
                exact dataViewConstructorBody_decision c state _ buffer args k l (hL buffer) hlen
          · rw [dataViewConstructorOffset_omitted c args (by omega), providedOffset, if_neg h2]
            simp only [Option.map_none', Option.getD_none, Bool.false_eq_true, if_false]
            have h := dataViewConstructorBody_decision c state thisValue.asArrayBufferView buffer
              args 0 l (hL buffer) hlen
            simpa using h
        | _ =>
          unfold builtinDataViewConstructor constructorDecisionList
          simp only [h0]
          rfl
      | _ =>
        unfold builtinDataViewConstructor constructorDecisionList
        simp only [h0]
        rfl
  refine ⟨main, fun buffer hbuf hd hnew => ⟨fun h2 hr => ?_, fun h => ?_⟩⟩
  · rw [main, hnew, hbuf]
    unfold constructorDecisionList
    simp [providedOffset, h2, hr]
  · rw [main, hnew, hbuf]
    unfold constructorDecisionList
    rcases h with h | h
    · have h2 : ¬ (2 ≤ args.length) := by omega
      simp [providedOffset, h2, hd]
    · by_cases h2 : 2 ≤ args.length
      · simp [providedOffset, h2, h, hd]
      · simp [providedOffset, h2, hd]

theorem constructor_decision_list_witness :
    builtinDataViewConstructor sampleConversion (bufferState 16 true) freshView
        [Value.object (Object.arrayBuffer 7), Value.number (Double.fin (3 / 2))] true =
      constructorDecisionList offsetRejected (bufferState 16 true) freshView.asArrayBufferView true
        (argv [Value.object (Object.arrayBuffer 7), Value.number (Double.fin (3 / 2))] 0)
        (providedOffset [Value.object (Object.arrayBuffer 7), Value.number (Double.fin (3 / 2))]
          (Double.fin (3 / 2)))
        (providedLength [Value.object (Object.arrayBuffer 7), Value.number (Double.fin (3 / 2))]
          0) :=
  (constructor_decision_list sampleConversion (bufferState 16 true) freshView
    [Value.object (Object.arrayBuffer 7), Value.number (Double.fin (3 / 2))] true
    (Double.fin (3 / 2)) 0
    (fun _ => by show (16 : ℕ) < 2 ^ 53; norm_num) (fun _ => rfl)
    (fun h => absurd h (by decide))).1

/-! ## The byte codec -/

theorem length_littleEndianBytes (width n : ℕ) : (littleEndianBytes width n).length = width := by
  induction width generalizing n with
  | zero => rfl
  | succ w ih => simp [littleEndianBytes, ih]

theorem length_encodeBytes (width : ℕ) (littleEndian : Bool) (n : ℕ) :
    (encodeBytes width littleEndian n).length = width := by
  unfold encodeBytes
  split_ifs <;> simp [length_littleEndianBytes]

theorem ofLittleEndianBytes_littleEndianBytes (width n : ℕ) :
    ofLittleEndianBytes (littleEndianBytes width n) = n % 256 ^ width := by
  induction width generalizing n with
  | zero => simp [littleEndianBytes, ofLittleEndianBytes, Nat.mod_one]
  | succ w ih =>
    show n % 256 + 256 * ofLittleEndianBytes (littleEndianBytes w (n / 256)) = _
    rw [ih, pow_succ, Nat.mul_comm (256 ^ w) 256, Nat.mod_mul]

theorem decodeBytes_encodeBytes (width : ℕ) (littleEndian : Bool) (n : ℕ) :
    decodeBytes littleEndian (encodeBytes width littleEndian n) = n % 256 ^ width := by
  unfold decodeBytes encodeBytes
  cases littleEndian with
  | true => simpa using ofLittleEndianBytes_littleEndianBytes width n
  | false => simpa using ofLittleEndianBytes_littleEndianBytes width n

theorem readBytes_writeBytes (data : ℕ → ℕ) (address : ℕ) (bytes : List ℕ) :
    readBytes (writeBytes data address bytes) address bytes.length = bytes := by
  unfold readBytes writeBytes
  apply List.ext_getElem
  · simp
  · intro i h1 h2
    simp only [List.getElem_map, List.getElem_range]
    have hi : i < bytes.length := h2
    rw [if_pos ⟨Nat.le_add_right _ _, by omega⟩, Nat.add_sub_cancel_left]
    exact (List.getD_eq_getElem bytes 0 hi)

/-! ## The integer formats -/

theorem Double.toUnsignedModulo_of_integer (bits : ℕ) (q : ℚ) (hq : ((⌊q⌋ : ℤ) : ℚ) = q) :
    Double.toUnsignedModulo bits (Double.fin q) = (⌊q⌋ % 2 ^ bits).toNat := by
  have hc : ⌈q⌉ = ⌊q⌋ := by
    conv_lhs => rw [← hq]
    exact Int.ceil_intCast _
  unfold Double.toUnsignedModulo Double.toInteger
  by_cases hneg : q < 0
  · simp only [hneg, if_true, hc, Int.floor_intCast]
  · simp only [hneg, if_false, Int.floor_intCast]

theorem signedOfUnsigned_emod (bits : ℕ) (hb : 0 < bits) (z : ℤ)
    (hlo : -(2 ^ (bits - 1) : ℤ) ≤ z) (hhi : z < (2 ^ (bits - 1) : ℤ)) :
    signedOfUnsigned bits (z % 2 ^ bits).toNat = z := by
  have hB : (2 : ℤ) ^ bits = 2 * 2 ^ (bits - 1) := by
    rw [← pow_succ']
    congr 1
    omega
  have hH : (0 : ℤ) < 2 ^ (bits - 1) := by positivity
  have hcast : ((2 ^ (bits - 1) : ℕ) : ℤ) = (2 : ℤ) ^ (bits - 1) := by push_cast; rfl
  unfold signedOfUnsigned
  by_cases hz : 0 ≤ z
  · have hm : z % 2 ^ bits = z := Int.emod_eq_of_lt hz (by rw [hB]; omega)
    rw [hm]
    have hlt : z.toNat < 2 ^ (bits - 1) := by
      have : ((z.toNat : ℕ) : ℤ) < ((2 ^ (bits - 1) : ℕ) : ℤ) := by
        rw [Int.toNat_of_nonneg hz, hcast]
        exact hhi
      exact_mod_cast this
    rw [if_pos hlt, Int.toNat_of_nonneg hz]
  · have hm : z % 2 ^ bits = z + 2 ^ bits := by
      rw [← Int.add_mul_emod_self_left z (2 ^ bits) 1, mul_one]
      exact Int.emod_eq_of_lt (by rw [hB]; omega) (by omega)
    rw [hm]
    have hnn : 0 ≤ z + 2 ^ bits := by rw [hB]; omega
    have hge : ¬ ((z + 2 ^ bits).toNat < 2 ^ (bits - 1)) := by
      intro h
      have : (((z + 2 ^ bits).toNat : ℕ) : ℤ) < ((2 ^ (bits - 1) : ℕ) : ℤ) := by exact_mod_cast h
      rw [Int.toNat_of_nonneg hnn, hcast, hB] at this
      omega
    rw [if_neg hge, Int.toNat_of_nonneg hnn]
    ring

theorem unsigned_emod (bits : ℕ) (z : ℤ) (hlo : 0 ≤ z) (hhi : z < (2 ^ bits : ℤ)) :
    (((z % 2 ^ bits).toNat : ℕ) : ℚ) = (z : ℚ) := by
  rw [Int.emod_eq_of_lt hlo hhi, ← Int.cast_natCast, Int.toNat_of_nonneg hlo]

theorem toNat_emod_lt (bits : ℕ) (z : ℤ) : (z % 2 ^ bits).toNat < 2 ^ bits := by
  have h1 : 0 ≤ z % 2 ^ bits := Int.emod_nonneg _ (by positivity)
  have h2 : z % 2 ^ bits < 2 ^ bits := Int.emod_lt_of_pos _ (by positivity)
  have : (((z % 2 ^ bits).toNat : ℕ) : ℤ) < ((2 ^ bits : ℕ) : ℤ) := by
    rw [Int.toNat_of_nonneg h1]
    push_cast
    exact h2
  exact_mod_cast this

/-- An integer format gives back the integers of its domain. -/
theorem decode_encode_signed (bits : ℕ) (hb : 0 < bits) (q : ℚ)
    (h : Double.isIntegerIn (-(2 ^ (bits - 1))) (2 ^ (bits - 1) - 1) (Double.fin q) = true) :
    Double.fin ((signedOfUnsigned bits (Double.toUnsignedModulo bits (Double.fin q)) : ℤ) : ℚ) =
      Double.fin q := by
  simp only [Double.isIntegerIn, decide_eq_true_eq] at h
  obtain ⟨hq, hlo, hhi⟩ := h
  rw [Double.toUnsignedModulo_of_integer bits q hq]
  have hlo1 : -(2 ^ (bits - 1) : ℤ) ≤ ⌊q⌋ := by
    have : ((-(2 ^ (bits - 1)) : ℤ) : ℚ) ≤ ((⌊q⌋ : ℤ) : ℚ) := by rw [hq]; exact hlo
    exact_mod_cast this
  have hhi1 : ⌊q⌋ < (2 ^ (bits - 1) : ℤ) := by
    have : ((⌊q⌋ : ℤ) : ℚ) ≤ ((2 ^ (bits - 1) - 1 : ℤ) : ℚ) := by rw [hq]; exact hhi
    have : ⌊q⌋ ≤ 2 ^ (bits - 1) - 1 := by exact_mod_cast this
    omega
  rw [signedOfUnsigned_emod bits hb ⌊q⌋ hlo1 hhi1, hq]

theorem decode_encode_unsigned (bits : ℕ) (q : ℚ)
    (h : Double.isIntegerIn 0 (2 ^ bits - 1) (Double.fin q) = true) :
    Double.fin ((Double.toUnsignedModulo bits (Double.fin q) : ℕ) : ℚ) = Double.fin q := by
  simp only [Double.isIntegerIn, decide_eq_true_eq] at h
  obtain ⟨hq, hlo, hhi⟩ := h
  rw [Double.toUnsignedModulo_of_integer bits q hq]
  have hlo1 : 0 ≤ ⌊q⌋ := by
    have : ((0 : ℤ) : ℚ) ≤ ((⌊q⌋ : ℤ) : ℚ) := by rw [hq]; exact hlo
    exact_mod_cast this
  have hhi1 : ⌊q⌋ < (2 ^ bits : ℤ) := by
    have : ((⌊q⌋ : ℤ) : ℚ) ≤ ((2 ^ bits - 1 : ℤ) : ℚ) := by rw [hq]; exact hhi
    have : ⌊q⌋ ≤ 2 ^ bits - 1 := by exact_mod_cast this
    omega
  rw [unsigned_emod bits ⌊q⌋ hlo1 hhi1, hq]

theorem toUnsignedModulo_lt (bits : ℕ) (d : Double) : Double.toUnsignedModulo bits d < 2 ^ bits := by
  unfold Double.toUnsignedModulo
  split
  · exact toNat_emod_lt bits _
  · positivity

/-! ## The float formats -/

theorem float_fields (mbits ebits s E M : ℕ) (hs : s < 2) (hE : E < 2 ^ ebits)
    (hM : M < 2 ^ mbits) :
    (s * 2 ^ (ebits + mbits) + (E * 2 ^ mbits + M)) / 2 ^ (ebits + mbits) % 2 = s ∧
    (s * 2 ^ (ebits + mbits) + (E * 2 ^ mbits + M)) / 2 ^ mbits % 2 ^ ebits = E ∧
    (s * 2 ^ (ebits + mbits) + (E * 2 ^ mbits + M)) % 2 ^ mbits = M := by
  have hpos : 0 < 2 ^ mbits := by positivity
  have hposE : 0 < 2 ^ ebits := by positivity
  have hform : s * 2 ^ (ebits + mbits) + (E * 2 ^ mbits + M) =
      M + 2 ^ mbits * (E + 2 ^ ebits * s) := by
    rw [pow_add]
    ring
  have hdiv : (s * 2 ^ (ebits + mbits) + (E * 2 ^ mbits + M)) / 2 ^ mbits = E + 2 ^ ebits * s := by
    rw [hform, Nat.add_mul_div_left _ _ hpos, Nat.div_eq_of_lt hM, Nat.zero_add]
  refine ⟨?_, ?_, ?_⟩
  · have hd2 : (s * 2 ^ (ebits + mbits) + (E * 2 ^ mbits + M)) / 2 ^ (ebits + mbits) =
        (s * 2 ^ (ebits + mbits) + (E * 2 ^ mbits + M)) / 2 ^ mbits / 2 ^ ebits := by
      rw [Nat.div_div_eq_div_mul, ← pow_add, Nat.add_comm mbits ebits]
    rw [hd2, hdiv, Nat.add_mul_div_left _ _ hposE, Nat.div_eq_of_lt hE, Nat.zero_add,
      Nat.mod_eq_of_lt hs]
  · rw [hdiv, Nat.add_mul_mod_self_left, Nat.mod_eq_of_lt hE]
  · rw [hform, Nat.add_mul_mod_self_left, Nat.mod_eq_of_lt hM]

theorem decodeFloat_of_fields (mbits ebits s E M : ℕ) (hs : s < 2) (hE : E < 2 ^ ebits - 1)
    (hM : M < 2 ^ mbits) :
    decodeFloat mbits ebits (s * 2 ^ (ebits + mbits) + (E * 2 ^ mbits + M)) =
      Double.fin ((if s = 1 then -1 else 1) *
        (if E = 0 then ((M : ℕ) : ℚ) * (2 : ℚ) ^ floatMinExponent mbits ebits
          else ((2 ^ mbits + M : ℕ) : ℚ) *
            (2 : ℚ) ^ (((E : ℕ) : ℤ) - 1 + floatMinExponent mbits ebits))) := by
  obtain ⟨h1, h2, h3⟩ := float_fields mbits ebits s E M hs (by omega) hM
  unfold decodeFloat
  rw [h1, h2, h3]
  rw [if_neg (by omega)]
  by_cases hE0 : E = 0
  · rw [if_pos hE0, if_pos hE0, mul_assoc]
  · rw [if_neg hE0, if_neg hE0, mul_assoc]

theorem floatMinExponent_le_ulp (mbits ebits : ℕ) (q : ℚ) :
    floatMinExponent mbits ebits ≤ floatUlpExponent mbits ebits q := by
  unfold floatUlpExponent
  split_ifs
  · exact le_refl _
  · exact le_max_right _ _

/-- The exponent and mantissa fields of a finite value that the format holds exactly. -/
theorem encodeFloat_fields (mbits ebits : ℕ) (he : 2 ≤ ebits) (q : ℚ)
    (h : Double.isFloat mbits ebits (Double.fin q) = true) :
    ∃ E M : ℕ, E < 2 ^ ebits - 1 ∧ M < 2 ^ mbits ∧
      (floatUlpExponent mbits ebits q - floatMinExponent mbits ebits).toNat * 2 ^ mbits +
          (Double.roundHalfEven (|q| / (2 : ℚ) ^ floatUlpExponent mbits ebits q)).toNat =
        E * 2 ^ mbits + M ∧
      (if E = 0 then ((M : ℕ) : ℚ) * (2 : ℚ) ^ floatMinExponent mbits ebits
        else ((2 ^ mbits + M : ℕ) : ℚ) *
          (2 : ℚ) ^ (((E : ℕ) : ℤ) - 1 + floatMinExponent mbits ebits)) = |q| := by
  simp only [Double.isFloat, decide_eq_true_eq] at h
  obtain ⟨hint, hlt⟩ := h
  have hUle := floatMinExponent_le_ulp mbits ebits q
  generalize hue : floatUlpExponent mbits ebits q = ue at hint hUle ⊢
  generalize hx : |q| / (2 : ℚ) ^ ue = x at hint ⊢
  have h2pos : (0 : ℚ) < (2 : ℚ) ^ ue := by positivity
  have hx0 : 0 ≤ x := by rw [← hx]; exact div_nonneg (abs_nonneg q) h2pos.le
  have hfl0 : 0 ≤ ⌊x⌋ := Int.floor_nonneg.mpr hx0
  have hround : Double.roundHalfEven x = ⌊x⌋ := by
    conv_lhs => rw [← hint]
    exact Double.roundHalfEven_intCast _
  rw [hround]
  generalize hm : ⌊x⌋.toNat = m
  have hmZ : ((m : ℕ) : ℤ) = ⌊x⌋ := by rw [← hm]; exact Int.toNat_of_nonneg hfl0
  have hmQ : ((m : ℕ) : ℚ) = x := by
    rw [← hint, ← hmZ]
    push_cast
    rfl
  have ha : |q| = (m : ℚ) * (2 : ℚ) ^ ue := by
    rw [hmQ, ← hx]
    field_simp
  -- the exponent range
  have hP2 : 2 ≤ 2 ^ (ebits - 1) := by
    calc 2 = 2 ^ 1 := by norm_num
      _ ≤ 2 ^ (ebits - 1) := Nat.pow_le_pow_right (by norm_num) (by omega)
  have h2e : 2 ^ ebits = 2 * 2 ^ (ebits - 1) := by
    rw [← pow_succ']
    congr 1
    omega
  have hU : floatMinExponent mbits ebits = 2 - ((2 ^ (ebits - 1) : ℕ) : ℤ) - (mbits : ℤ) := by
    unfold floatMinExponent
    push_cast
    rfl
  generalize hP : 2 ^ (ebits - 1) = P at hP2 h2e hU hlt
  generalize hUU : floatMinExponent mbits ebits = U at hU hUle hue ⊢
  have hX : 0 < 2 ^ mbits := by positivity
  by_cases hq0 : q = 0
  · -- zero
    have hue0 : ue = U := by
      rw [← hue]
      unfold floatUlpExponent
      rw [if_pos hq0, hUU]
    have hm0 : m = 0 := by
      have : ((m : ℕ) : ℚ) = 0 := by
        rw [hmQ, ← hx, hq0]
        simp
      exact_mod_cast this
    refine ⟨0, 0, by omega, hX, ?_, ?_⟩
    · rw [hue0, hm0]
      simp
    · rw [if_pos rfl, hq0]
      simp
  · -- a nonzero value
    have hapos : 0 < |q| := abs_pos.mpr hq0
    have hue1 : ue = max (Int.log 2 |q| - (mbits : ℤ)) U := by
      rw [← hue]
      unfold floatUlpExponent
      rw [if_neg hq0, hUU]
    generalize hL : Int.log 2 |q| = L at hue1
    have hLlo : (2 : ℚ) ^ L ≤ |q| := by
      have := Int.zpow_log_le_self (R := ℚ) (b := 2) (r := |q|) (by norm_num) hapos
      rw [hL] at this
      simpa using this
    have hLhi : |q| < (2 : ℚ) ^ (L + 1) := by
      have := Int.lt_zpow_succ_log_self (R := ℚ) (b := 2) (by norm_num) |q|
      rw [hL] at this
      simpa using this
    have hLP : L < (P : ℤ) := by
      have h1 : |q| < ((2 : ℕ) : ℚ) ^ ((P : ℕ) : ℤ) := by
        rw [zpow_natCast]
        simpa using hlt
      have := (Int.lt_zpow_iff_log_lt (R := ℚ) (b := 2) (by norm_num) hapos).mp h1
      rw [hL] at this
      exact this
    have hue_ge : L - (mbits : ℤ) ≤ ue := by rw [hue1]; exact le_max_left _ _
    have hue_le : ue ≤ (P : ℤ) - 1 - (mbits : ℤ) := by
      rw [hue1]
      apply max_le
      · omega
      · rw [hU]
        omega
    have hm_lt : m < 2 ^ (mbits + 1) := by
      have h1 : ((m : ℕ) : ℚ) * (2 : ℚ) ^ ue < (2 : ℚ) ^ ((mbits + 1 : ℕ) : ℤ) * (2 : ℚ) ^ ue := by
        rw [← ha, ← zpow_add₀ (by norm_num : (2 : ℚ) ≠ 0)]
        refine lt_of_lt_of_le hLhi (zpow_le_zpow_right₀ (by norm_num) ?_)
        push_cast
        omega
      have h2 : ((m : ℕ) : ℚ) < (2 : ℚ) ^ ((mbits + 1 : ℕ) : ℤ) := lt_of_mul_lt_mul_right h1 h2pos.le
      rw [zpow_natCast] at h2
      exact_mod_cast h2
    by_cases hsmall : m < 2 ^ mbits
    · have hue0 : ue = U := by
        by_contra hne
        have hgt : U < ue := lt_of_le_of_ne hUle (Ne.symm hne)
        have hue2 : ue = L - (mbits : ℤ) := by
          rw [hue1] at hgt ⊢
          rcases max_cases (L - (mbits : ℤ)) U with ⟨h1, _⟩ | ⟨h1, _⟩
          · exact h1
          · rw [h1] at hgt
            exact absurd hgt (lt_irrefl _)
        have h1 : (2 : ℚ) ^ ((mbits : ℕ) : ℤ) * (2 : ℚ) ^ ue ≤ ((m : ℕ) : ℚ) * (2 : ℚ) ^ ue := by
          rw [← ha, ← zpow_add₀ (by norm_num : (2 : ℚ) ≠ 0)]
          refine le_trans (zpow_le_zpow_right₀ (by norm_num) ?_) hLlo
          omega
        have h2 : (2 : ℚ) ^ ((mbits : ℕ) : ℤ) ≤ ((m : ℕ) : ℚ) := le_of_mul_le_mul_right h1 h2pos
        rw [zpow_natCast] at h2
        have h3 : 2 ^ mbits ≤ m := by exact_mod_cast h2
        omega
      refine ⟨0, m, by omega, hsmall, ?_, ?_⟩
      · rw [hue0]
        simp
      · rw [if_pos rfl, ha, hue0]
    · have hge : 2 ^ mbits ≤ m := not_lt.mp hsmall
      have hE0 : (((ue - U).toNat : ℕ) : ℤ) = ue - U := Int.toNat_of_nonneg (by omega)
      refine ⟨(ue - U).toNat + 1, m - 2 ^ mbits, ?_, ?_, ?_, ?_⟩
      · have : (((ue - U).toNat : ℕ) : ℤ) ≤ 2 * (P : ℤ) - 3 := by
          rw [hE0, hU]
          omega
        omega
      · rw [pow_succ] at hm_lt
        omega
      · rw [Nat.add_mul, Nat.one_mul, Nat.add_assoc, Nat.add_sub_cancel' hge]
      · rw [if_neg (by omega), Nat.add_sub_cancel' hge, ha]
        congr 2
        push_cast
        rw [hE0]
        ring

theorem encodeFloat_lt (mbits ebits : ℕ) (hm : 1 ≤ mbits) (d : Double) :
    encodeFloat mbits ebits d < 2 ^ (1 + ebits + mbits) := by
  have hE : 1 ≤ 2 ^ ebits := Nat.one_le_two_pow
  have hX : 0 < 2 ^ mbits := by positivity
  have hinf : (2 ^ ebits - 1) * 2 ^ mbits + 2 ^ mbits = 2 ^ (ebits + mbits) := by
    rw [pow_add, Nat.sub_mul, Nat.one_mul]
    have : 2 ^ mbits ≤ 2 ^ ebits * 2 ^ mbits := Nat.le_mul_of_pos_left _ (by omega)
    omega
  have htop : 2 ^ (1 + ebits + mbits) = 2 ^ (ebits + mbits) + 2 ^ (ebits + mbits) := by
    rw [Nat.add_assoc, pow_add, pow_one, Nat.two_mul]
  have hhalf : 2 ^ (mbits - 1) < 2 ^ mbits := Nat.pow_lt_pow_right (by norm_num) (by omega)
  cases d with
  | nan => show (2 ^ ebits - 1) * 2 ^ mbits + 2 ^ (mbits - 1) < _; omega
  | posInf => show (2 ^ ebits - 1) * 2 ^ mbits < _; omega
  | negInf => show 2 ^ (ebits + mbits) + (2 ^ ebits - 1) * 2 ^ mbits < _; omega
  | fin q =>
    unfold encodeFloat
    simp only
    have hmin := Nat.min_le_right
      ((floatUlpExponent mbits ebits q - floatMinExponent mbits ebits).toNat * 2 ^ mbits +
        (Double.roundHalfEven (|q| / (2 : ℚ) ^ floatUlpExponent mbits ebits q)).toNat)
      ((2 ^ ebits - 1) * 2 ^ mbits)
    generalize min
      ((floatUlpExponent mbits ebits q - floatMinExponent mbits ebits).toNat * 2 ^ mbits +
        (Double.roundHalfEven (|q| / (2 : ℚ) ^ floatUlpExponent mbits ebits q)).toNat)
      ((2 ^ ebits - 1) * 2 ^ mbits) = pattern at hmin ⊢
    split_ifs <;> omega

/-- A float format gives back the values it holds exactly. -/
theorem decodeFloat_encodeFloat (mbits ebits : ℕ) (hm : 1 ≤ mbits) (he : 2 ≤ ebits) (d : Double)
    (h : Double.isFloat mbits ebits d = true) :
    decodeFloat mbits ebits (encodeFloat mbits ebits d) = d := by
  have hE : 2 ≤ 2 ^ ebits := by
    calc 2 = 2 ^ 1 := by norm_num
      _ ≤ 2 ^ ebits := Nat.pow_le_pow_right (by norm_num) (by omega)
  have hX : 0 < 2 ^ mbits := by positivity
  have hhalf : 2 ^ (mbits - 1) < 2 ^ mbits := Nat.pow_lt_pow_right (by norm_num) (by omega)
  have hhalf0 : 0 < 2 ^ (mbits - 1) := by positivity
  cases d with
  | nan =>
    obtain ⟨h1, h2, h3⟩ := float_fields mbits ebits 0 (2 ^ ebits - 1) (2 ^ (mbits - 1))
      (by norm_num) (by omega) hhalf
    simp only [Nat.zero_mul, Nat.zero_add] at h1 h2 h3
    unfold decodeFloat encodeFloat
    simp only
    rw [h2, h3, if_pos rfl, if_neg (by omega)]
  | posInf =>
    obtain ⟨h1, h2, h3⟩ := float_fields mbits ebits 0 (2 ^ ebits - 1) 0
      (by norm_num) (by omega) hX
    simp only [Nat.zero_mul, Nat.zero_add, Nat.add_zero] at h1 h2 h3
    unfold decodeFloat encodeFloat
    simp only
    rw [h1, h2, h3, if_pos rfl, if_pos rfl, if_neg (by norm_num)]
  | negInf =>
    obtain ⟨h1, h2, h3⟩ := float_fields mbits ebits 1 (2 ^ ebits - 1) 0
      (by norm_num) (by omega) hX
    simp only [Nat.one_mul, Nat.add_zero] at h1 h2 h3
    unfold decodeFloat encodeFloat
    simp only
    rw [h1, h2, h3, if_pos rfl, if_pos rfl, if_pos rfl]
  | fin q =>
    obtain ⟨E, M, hElt, hMlt, hpat, hval⟩ := encodeFloat_fields mbits ebits he q h
    have hlt : E * 2 ^ mbits + M < (2 ^ ebits - 1) * 2 ^ mbits := by
      have h1 : (E + 1) * 2 ^ mbits ≤ (2 ^ ebits - 1) * 2 ^ mbits :=
        Nat.mul_le_mul_right _ (by omega)
      rw [Nat.add_mul, Nat.one_mul] at h1
      omega
    have henc : encodeFloat mbits ebits (Double.fin q) =
        (if q < 0 then 1 else 0) * 2 ^ (ebits + mbits) + (E * 2 ^ mbits + M) := by
      unfold encodeFloat
      simp only
      rw [hpat, Nat.min_eq_left (le_of_lt hlt)]
      split_ifs <;> simp
    rw [henc, decodeFloat_of_fields mbits ebits _ E M (by split_ifs <;> norm_num) hElt hMlt, hval]
    congr 1
    by_cases hq : q < 0
    · rw [if_pos hq, if_pos rfl, abs_of_neg hq]
      ring
    · rw [if_neg hq, if_neg (by norm_num), abs_of_nonneg (not_lt.mp hq)]
      ring

/-! ## The formats -/

theorem TypedArrayType.encode_lt (t : TypedArrayType) (d : Double) :
    t.encode d < 256 ^ t.width := by
  cases t with
  | Float32 =>
    have h := encodeFloat_lt 23 8 (by norm_num) d
    have e : 2 ^ (1 + 8 + 23) = 256 ^ 4 := by norm_num
    rw [e] at h
    exact h
  | Float64 =>
    have h := encodeFloat_lt 52 11 (by norm_num) d
    have e : 2 ^ (1 + 11 + 52) = 256 ^ 8 := by norm_num
    rw [e] at h
    exact h
  | Int8 => exact toUnsignedModulo_lt 8 d
  | Int16 =>
    have h := toUnsignedModulo_lt 16 d
    have e : 2 ^ 16 = 256 ^ 2 := by norm_num
    rw [e] at h
    exact h
  | Int32 =>
    have h := toUnsignedModulo_lt 32 d
    have e : 2 ^ 32 = 256 ^ 4 := by norm_num
    rw [e] at h
    exact h
  | Uint8 => exact toUnsignedModulo_lt 8 d
  | Uint16 =>
    have h := toUnsignedModulo_lt 16 d
    have e : 2 ^ 16 = 256 ^ 2 := by norm_num
    rw [e] at h
    exact h
  | Uint32 =>
    have h := toUnsignedModulo_lt 32 d
    have e : 2 ^ 32 = 256 ^ 4 := by norm_num
    rw [e] at h
    exact h

/-- Each format decodes what it encoded, for the values of its domain. -/
theorem TypedArrayType.decode_encode (t : TypedArrayType) (d : Double)
    (h : t.represents d = true) : t.decode (t.encode d) = d := by
  cases t with
  | Float32 => exact decodeFloat_encodeFloat 23 8 (by norm_num) (by norm_num) d h
  | Float64 => exact decodeFloat_encodeFloat 52 11 (by norm_num) (by norm_num) d h
  | Int8 =>
    cases d with
    | fin q =>
      have e1 : (-(2 ^ (8 - 1)) : ℤ) = -128 := by norm_num
      have e2 : ((2 ^ (8 - 1) - 1 : ℤ)) = 127 := by norm_num
      exact decode_encode_signed 8 (by norm_num) q (by rw [e1, e2]; exact h)
    | _ => cases h
  | Int16 =>
    cases d with
    | fin q =>
      have e1 : (-(2 ^ (16 - 1)) : ℤ) = -32768 := by norm_num
      have e2 : ((2 ^ (16 - 1) - 1 : ℤ)) = 32767 := by norm_num
      exact decode_encode_signed 16 (by norm_num) q (by rw [e1, e2]; exact h)
    | _ => cases h
  | Int32 =>
    cases d with
    | fin q =>
      have e1 : (-(2 ^ (32 - 1)) : ℤ) = -2147483648 := by norm_num
      have e2 : ((2 ^ (32 - 1) - 1 : ℤ)) = 2147483647 := by norm_num
      exact decode_encode_signed 32 (by norm_num) q (by rw [e1, e2]; exact h)
    | _ => cases h
  | Uint8 =>
    cases d with
    | fin q =>
      have e2 : ((2 ^ 8 - 1 : ℤ)) = 255 := by norm_num
      exact decode_encode_unsigned 8 q (by rw [e2]; exact h)
    | _ => cases h
  | Uint16 =>
    cases d with
    | fin q =>
      have e2 : ((2 ^ 16 - 1 : ℤ)) = 65535 := by norm_num
      exact decode_encode_unsigned 16 q (by rw [e2]; exact h)
    | _ => cases h
  | Uint32 =>
    cases d with
    | fin q =>
      have e2 : ((2 ^ 32 - 1 : ℤ)) = 4294967295 := by norm_num
      exact decode_encode_unsigned 32 q (by rw [e2]; exact h)
    | _ => cases h

/-! ## The view access -/

theorem Value.toIndex_natCast (c : ValueConversion) (k : ℕ) (hk : k ≤ 2 ^ 53 - 1) :
    (Value.number (Double.fin k)).toIndex c = Except.ok k := by
  have h1 : ¬ ((k : ℚ) < 0 ∨ (2 : ℚ) ^ 53 - 1 < (k : ℚ)) := by
    intro h
    rcases h with h | h
    · exact absurd h (not_lt.mpr (Nat.cast_nonneg k))
    · have h3 : ((2 ^ 53 - 1 : ℕ) : ℚ) < (k : ℚ) := by
        have : ((2 ^ 53 - 1 : ℕ) : ℚ) = (2 : ℚ) ^ 53 - 1 := by norm_num
        rw [this]
        exact h
      have : 2 ^ 53 - 1 < k := by exact_mod_cast h3
      omega
  show (match Double.toInteger (Double.fin k) with
    | Double.fin q =>
      if q < 0 ∨ 2 ^ 53 - 1 < q then (throw invalidIndexError : Except Thrown ℕ)
      else pure ⌊q⌋.toNat
    | _ => throw invalidIndexError) = _
  rw [Double.toInteger_natCast]
  simp only [h1, if_false, Int.floor_natCast, Int.toNat_ofNat]
  rfl

theorem builtinDataViewGet_view (getViewValue : GetViewValue) (Name : TypedArrayType)
    (state : ExecutionState) (view : DataViewObject) (args : List Value) :
    builtinDataViewGet getViewValue Name state (Value.object (Object.dataView view)) args =
      getViewValue state view (argv args 0)
        (if args.length < 2 then Value.boolean false else argv args 1) Name := by
  show (if args.length < 2 then _ else _) = _
  split_ifs <;> rfl

theorem builtinDataViewSet_view (setViewValue : SetViewValue) (Name : TypedArrayType)
    (state : ExecutionState) (view : DataViewObject) (args : List Value) :
    builtinDataViewSet setViewValue Name state (Value.object (Object.dataView view)) args =
      setViewValue state view (argv args 0)
        (if args.length < 3 then Value.boolean false else argv args 2) Name (argv args 1) := by
  show (if args.length < 3 then _ else _) = _
  split_ifs <;> rfl

/-- The getter on a live buffer, for an index in the bounds of the view. -/
theorem getViewValue_in_bounds (c : ValueConversion) (state : ExecutionState)
    (view : DataViewObject) (requestIndex littleEndian : Value) (type : TypedArrayType)
    (o len k : ℕ) (hd : (state.buffers view.buffer).detached = false)
    (ho : view.byteoffset = Double.fin o) (hlen : view.bytelength = Double.fin len)
    (hidx : requestIndex.toIndex c = Except.ok k) (hb : k + type.width ≤ len) :
    getViewValue c state view requestIndex littleEndian type =
      Except.ok (Value.number (type.decode (decodeBytes littleEndian.toBoolean
        (readBytes (state.buffers view.buffer).data (o + k) type.width)))) := by
  have hlt : Double.lt view.bytelength (Double.fin ((k + type.width : ℕ) : ℚ)) = false := by
    rw [hlen]
    show decide ((len : ℚ) < ((k + type.width : ℕ) : ℚ)) = false
    rw [decide_eq_false_iff_not, not_lt]
    exact_mod_cast hb
  have hnat : view.byteoffset.toNat = o := by
    rw [ho]
    show ⌊(o : ℚ)⌋.toNat = o
    simp
  unfold getViewValue
  rw [show (state.buffers view.buffer).isDetachedBuffer = false from hd, if_neg (by decide),
    hidx]
  show (if Double.lt view.bytelength (Double.fin ((k + type.width : ℕ) : ℚ)) = true then _
    else _) = _
  rw [hlt, if_neg (by decide), hnat]
  rfl

/-- The setter on a live buffer, for an index in the bounds of the view. -/
theorem setViewValue_in_bounds (c : ValueConversion) (state : ExecutionState)
    (view : DataViewObject) (requestIndex littleEndian value : Value) (type : TypedArrayType)
    (o len k : ℕ) (d : Double) (hd : (state.buffers view.buffer).detached = false)
    (ho : view.byteoffset = Double.fin o) (hlen : view.bytelength = Double.fin len)
    (hidx : requestIndex.toIndex c = Except.ok k) (hb : k + type.width ≤ len)
    (hv : value.toNumber c = Except.ok d) :
    setViewValue c state view requestIndex littleEndian type value =
      Except.ok (Value.undefined,
        { state with
          buffers := Function.update state.buffers view.buffer
            { state.buffers view.buffer with
              data := writeBytes (state.buffers view.buffer).data (o + k)
                (encodeBytes type.width littleEndian.toBoolean (type.encode d)) } }) := by
  have hlt : Double.lt view.bytelength (Double.fin ((k + type.width : ℕ) : ℚ)) = false := by
    rw [hlen]
    show decide ((len : ℚ) < ((k + type.width : ℕ) : ℚ)) = false
    rw [decide_eq_false_iff_not, not_lt]
    exact_mod_cast hb
  have hnat : view.byteoffset.toNat = o := by
    rw [ho]
    show ⌊(o : ℚ)⌋.toNat = o
    simp
  unfold setViewValue
  rw [show (state.buffers view.buffer).isDetachedBuffer = false from hd, if_neg (by decide),
    hidx]
  show (if Double.lt view.bytelength (Double.fin ((k + type.width : ℕ) : ℚ)) = true then _
    else _) = _
  rw [hlt, if_neg (by decide), hv, hnat]
  rfl

theorem sampleView_construction :
    builtinDataViewConstructor sampleConversion (bufferState 16 false) freshView
        [Value.object (Object.arrayBuffer 7), Value.number (Double.fin 0)] true =
      Except.ok (Value.object (Object.dataView sampleView)) := by
  have h0 : (Double.fin 0) = Double.fin ((0 : ℕ) : ℚ) := by simp
  rw [builtinDataViewConstructor_arrayBuffer sampleConversion (bufferState 16 false) freshView
      [Value.object (Object.arrayBuffer 7), Value.number (Double.fin 0)] 7 rfl,
    dataViewConstructorOffset_natCast sampleConversion
      [Value.object (Object.arrayBuffer 7), Value.number (Double.fin 0)] 0 (by decide)
      (by rw [h0]; rfl)]
  have h := dataViewConstructorBody_no_length sampleConversion (bufferState 16 false)
    freshView.asArrayBufferView 7
    [Value.object (Object.arrayBuffer 7), Value.number (Double.fin 0)] 16 0
    rfl rfl (by norm_num) (by norm_num) (Or.inl (by decide))
  refine Eq.trans h ?_
  simp [sampleView]

theorem Double.toUnsignedModulo_natCast (bits n : ℕ) :
    Double.toUnsignedModulo bits (Double.fin n) = n % 2 ^ bits := by
  rw [Double.toUnsignedModulo_of_integer bits (n : ℚ) (by simp), Int.floor_natCast]
  have : (n : ℤ) % 2 ^ bits = ((n % 2 ^ bits : ℕ) : ℤ) := by push_cast; rfl
  rw [this, Int.toNat_ofNat]

theorem sample_set :
    builtinDataViewSet (setViewValue sampleConversion) TypedArrayType.Uint32 (bufferState 16 false)
        (Value.object (Object.dataView sampleView))
        [Value.number (Double.fin 0), Value.number (Double.fin 16909060), Value.boolean true] =
      Except.ok (Value.undefined, sampleStateAfterSet) := by
  have h0 : (Double.fin 0) = Double.fin ((0 : ℕ) : ℚ) := by simp
  have h1 : (Double.fin 16909060) = Double.fin ((16909060 : ℕ) : ℚ) := by simp
  rw [builtinDataViewSet_view]
  show setViewValue sampleConversion (bufferState 16 false) sampleView (Value.number (Double.fin 0))
    (Value.boolean true) TypedArrayType.Uint32 (Value.number (Double.fin 16909060)) = _
  rw [setViewValue_in_bounds sampleConversion (bufferState 16 false) sampleView
    (Value.number (Double.fin 0)) (Value.boolean true) (Value.number (Double.fin 16909060))
    TypedArrayType.Uint32 0 16 0 (Double.fin 16909060) rfl
    (by show Double.fin 0 = Double.fin ((0 : ℕ) : ℚ); simp)
    (by show Double.fin 16 = Double.fin ((16 : ℕ) : ℚ); simp)
    (by rw [h0]; exact Value.toIndex_natCast sampleConversion 0 (by norm_num)) (by decide) rfl]
  have henc : TypedArrayType.encode TypedArrayType.Uint32 (Double.fin 16909060) = 16909060 := by
    rw [h1]
    show Double.toUnsignedModulo 32 (Double.fin ((16909060 : ℕ) : ℚ)) = 16909060
    rw [Double.toUnsignedModulo_natCast]
    norm_num
  rw [henc]
  rfl

theorem sample_get (type : TypedArrayType) (k : ℕ) (littleEndian : Value)
    (hb : k + type.width ≤ 16) :
    getViewValue sampleConversion sampleStateAfterSet sampleView (Value.number (Double.fin k))
        littleEndian type =
      Except.ok (Value.number (type.decode (decodeBytes littleEndian.toBoolean
        (readBytes (writeBytes (fun _ => 0) 0 [4, 3, 2, 1]) k type.width)))) := by
  rw [getViewValue_in_bounds sampleConversion sampleStateAfterSet sampleView
    (Value.number (Double.fin k)) littleEndian type 0 16 k rfl
    (by show Double.fin 0 = Double.fin ((0 : ℕ) : ℚ); simp)
    (by show Double.fin 16 = Double.fin ((16 : ℕ) : ℚ); simp)
    (Value.toIndex_natCast sampleConversion k (by omega)) hb, Nat.zero_add]
  rfl

/-! ## The claims on the typed accessors -/

/-- C13: for every format `T`, every byte order argument, every view of a buffer
that is not detached, every request offset with `off + width(T) ≤ view.byteLength`
and every value `v` of the domain of `T`, `setT(off, v, order)` succeeds and
`getT(off, order)` in the state it leaves returns `v`. -/
theorem set_get_round_trip (c : ValueConversion) (state : ExecutionState)
    (view : DataViewObject) (T : TypedArrayType) (off order : Value) (v : Double) (o len k : ℕ)
    (hd : (state.buffers view.buffer).detached = false)
    (ho : view.byteoffset = Double.fin o) (hlen : view.bytelength = Double.fin len)
    (hidx : off.toIndex c = Except.ok k) (hb : k + T.width ≤ len)
    (hv : T.represents v = true) :
    ∃ after : ExecutionState,
      builtinDataViewSet (setViewValue c) T state (Value.object (Object.dataView view))
          [off, Value.number v, order] = Except.ok (Value.undefined, after) ∧
      builtinDataViewGet (getViewValue c) T after (Value.object (Object.dataView view))
          [off, order] = Except.ok (Value.number v) := by
  refine ⟨{ state with
    buffers := Function.update state.buffers view.buffer
      { state.buffers view.buffer with
        data := writeBytes (state.buffers view.buffer).data (o + k)
          (encodeBytes T.width order.toBoolean (T.encode v)) } }, ?_, ?_⟩
  · rw [builtinDataViewSet_view]
    exact setViewValue_in_bounds c state view off order (Value.number v) T o len k v hd ho hlen
      hidx hb rfl
  · rw [builtinDataViewGet_view]
    show getViewValue c _ view off order T = _
    rw [getViewValue_in_bounds c _ view off order T o len k (by simp [hd]) ho hlen hidx hb]
    simp only [Function.update_same]
    have hw := length_encodeBytes T.width order.toBoolean (T.encode v)
    have hr := readBytes_writeBytes (state.buffers view.buffer).data (o + k)
      (encodeBytes T.width order.toBoolean (T.encode v))
    rw [hw] at hr
    rw [hr, decodeBytes_encodeBytes, Nat.mod_eq_of_lt (TypedArrayType.encode_lt T v),
      TypedArrayType.decode_encode T v hv]

theorem set_get_round_trip_witness :
    ∃ after : ExecutionState,
      builtinDataViewSet (setViewValue sampleConversion) TypedArrayType.Uint32
          (bufferState 16 false) (Value.object (Object.dataView sampleView))
          [Value.number (Double.fin 0), Value.number (Double.fin 16909060), Value.boolean true] =
        Except.ok (Value.undefined, after) ∧
      builtinDataViewGet (getViewValue sampleConversion) TypedArrayType.Uint32 after
          (Value.object (Object.dataView sampleView))
          [Value.number (Double.fin 0), Value.boolean true] =
        Except.ok (Value.number (Double.fin 16909060)) ∧
      builtinDataViewGet (getViewValue sampleConversion) TypedArrayType.Uint8 after
          (Value.object (Object.dataView sampleView)) [Value.number (Double.fin 0)] =
        Except.ok (Value.number (Double.fin 4)) ∧
      builtinDataViewGet (getViewValue sampleConversion) TypedArrayType.Uint8 after
          (Value.object (Object.dataView sampleView)) [Value.number (Double.fin 3)] =
        Except.ok (Value.number (Double.fin 1)) ∧
      builtinDataViewGet (getViewValue sampleConversion) TypedArrayType.Uint32 after
          (Value.object (Object.dataView sampleView))
          [Value.number (Double.fin 0), Value.boolean false] =
        Except.ok (Value.number (Double.fin 67305985)) := by
  have h0 : (Double.fin 0) = Double.fin ((0 : ℕ) : ℚ) := by simp
  have h3 : (Double.fin 3) = Double.fin ((3 : ℕ) : ℚ) := by simp
  have hrep : TypedArrayType.represents TypedArrayType.Uint32 (Double.fin 16909060) = true := by
    have h1 : (Double.fin 16909060) = Double.fin ((16909060 : ℕ) : ℚ) := by simp
    rw [h1]
    show decide (((⌊((16909060 : ℕ) : ℚ)⌋ : ℤ) : ℚ) = ((16909060 : ℕ) : ℚ) ∧
      ((0 : ℤ) : ℚ) ≤ ((16909060 : ℕ) : ℚ) ∧ ((16909060 : ℕ) : ℚ) ≤ ((4294967295 : ℤ) : ℚ)) = true
    rw [Int.floor_natCast]
    norm_num
  obtain ⟨after, hset, hget⟩ := set_get_round_trip sampleConversion (bufferState 16 false)
    sampleView TypedArrayType.Uint32 (Value.number (Double.fin 0)) (Value.boolean true)
    (Double.fin 16909060) 0 16 0 rfl
    (by show Double.fin 0 = Double.fin ((0 : ℕ) : ℚ); simp)
    (by show Double.fin 16 = Double.fin ((16 : ℕ) : ℚ); simp)
    (by rw [h0]; exact Value.toIndex_natCast sampleConversion 0 (by norm_num)) (by decide) hrep
  have hafter : after = sampleStateAfterSet := by
    have h := hset.symm.trans sample_set
    injection h with h
    injection h
  refine ⟨after, hset, hget, ?_, ?_, ?_⟩
  · rw [hafter, builtinDataViewGet_view, h0]
    refine Eq.trans (sample_get TypedArrayType.Uint8 0 _ (by decide)) ?_
    show Except.ok (Value.number (Double.fin ((4 : ℕ) : ℚ))) = _
    simp
  · rw [hafter, builtinDataViewGet_view, h3]
    refine Eq.trans (sample_get TypedArrayType.Uint8 3 _ (by decide)) ?_
    show Except.ok (Value.number (Double.fin ((1 : ℕ) : ℚ))) = _
    simp
  · rw [hafter, builtinDataViewGet_view, h0]
    refine Eq.trans (sample_get TypedArrayType.Uint32 0 _ (by decide)) ?_
    show Except.ok (Value.number (Double.fin ((67305985 : ℕ) : ℚ))) = _
    simp

end Escargot
